import Mathlib

/-!
# Document manager front end: session, query and OCR-cache coordinator

A shallow embedding of `frontend/src/App.js` (the `DocumentManager` React
component).

* `State` holds the values of the `useState` variables.
* `World` adds what lives outside React state: the `localStorage` token, the
  requests that were sent and are still in flight, and the observable effects
  (`alert` messages, saved downloads).
* Every `async` handler has exactly one `await`.  It is split at that point:
  the definition carrying the name of the source function is the part that
  runs up to the `await` (it sends the request), and the definition with the
  suffix `Resume` is the part that runs when the response arrives.
* A handler is a closure created by one render.  Plain reads of a state
  variable inside a handler see the values of that render, also after the
  `await`; they are passed as the argument `r`.  Setters and the functional
  updater of `setCachedOcrTexts` act on the current state, which is the
  `World` argument.
-/

namespace DocumentManager

/-! ## Data model -/

/-- Values of `authMode`. -/
inductive AuthMode where
  | login
  | register
deriving DecidableEq, Repr

/-- One element of the `content` array returned by the list endpoints. -/
structure Document where
  id : Nat
  title : String
  number : String
  date : String
  description : Option String
  hasFile : Bool
  originalFilename : String
  fileSize : Nat
deriving DecidableEq, Repr

/-- A JSON object returned by `response.json()`.  Only the fields that the
component reads are kept; `none` stands for an absent (`undefined`) field. -/
structure Payload where
  content : Option (List Document)
  ocrText : Option String
  token : Option String
  username : Option String
  firstName : Option String
  lastName : Option String
deriving DecidableEq, Repr

/-- The object held in `documentFormData`. -/
structure DocumentFormData where
  title : String
  number : String
  date : String
  description : String
deriving DecidableEq, Repr

/-- The object held in `authFormData`. -/
structure AuthFormData where
  username : String
  password : String
  email : String
  firstName : String
  lastName : String
deriving DecidableEq, Repr

/-- A property key of the `cachedOcrTexts` object.  JavaScript converts the
value between the brackets to a string; on `null` and on numbers this
conversion is injective, so the key is kept as the value itself:
`none` is the key of `null`, `some n` the key of the number `n`. -/
abbrev CacheKey := Option Nat

/-- The object held in `cachedOcrTexts`, as an association list with at most
one pair per key in use. -/
abbrev OcrCache := List (CacheKey × String)

/-- Property read `cachedOcrTexts[key]`; `none` is `undefined` (a miss). -/
def ocrGet (key : CacheKey) (cache : OcrCache) : Option String :=
  (cache.find? (fun e => e.1 == key)).map (fun e => e.2)

/-- The updater `prev => { const c = { ...prev }; delete c[key]; return c }`. -/
def ocrDelete (key : CacheKey) (prev : OcrCache) : OcrCache :=
  prev.filter (fun e => !(e.1 == key))

/-- The updater `prev => ({ ...prev, [key]: text })`. -/
def ocrSet (key : CacheKey) (text : String) (prev : OcrCache) : OcrCache :=
  (key, text) :: prev.filter (fun e => !(e.1 == key))

/-- The `useState` variables of the component (lines 13-54). -/
structure State where
  user : Option Payload
  /-- Identity of the object held in `user`.  Every successful
  `response.json()` yields a fresh object, and the dependency array of an
  effect compares objects by identity, not by content. -/
  userRef : Nat
  documents : List Document
  isAddingOrEditing : Bool
  editingId : Option Nat
  searchTerm : String
  activeSearchTerm : String
  searchInOcr : Bool
  isLoading : Bool
  showAuthModal : Bool
  authMode : AuthMode
  showOcrModal : Bool
  currentOcrText : String
  currentOcrDocumentTitle : String
  isOcrLoading : Bool
  ocrSearchKeyword : String
  cachedOcrTexts : OcrCache
  documentFormData : DocumentFormData
  selectedFile : Option String
  authFormData : AuthFormData
deriving DecidableEq, Repr

/-- Request bodies built by the handlers. -/
inductive Body where
  | empty
  | loginJson (username password : String)
  | registerJson (form : AuthFormData)
  | documentForm (document : DocumentFormData) (file : Option String)
  | fileForm (file : Option String)
deriving DecidableEq, Repr

/-- What is handed to the browser `fetch`. -/
structure Request where
  endpoint : String
  method : String
  authorization : Option String
  contentType : Option String
  body : Body
deriving DecidableEq, Repr

/-- The ways a remote call can come back. -/
inductive Response where
  /-- Status 401. -/
  | status401
  /-- Another status outside 2xx, with the `message` field of its JSON body. -/
  | notOk (message : Option String)
  /-- A 2xx status with `content-length: 0`, or status 204. -/
  | noContent
  /-- A 2xx status with a JSON object as body. -/
  | json (data : Payload)
  /-- The call itself throws: `fetch` rejects (transport failure) or the body
  cannot be parsed.  `message` is the `message` of the thrown error. -/
  | thrown (message : String)
deriving DecidableEq, Repr

/-- The suspended rest of an `async` handler, with the arguments it was called
with and the render `r` whose closure it is. -/
inductive Cont where
  | validateToken
  | handleAuthSubmit
  | fetchDocuments
  | handleCreateDocument (r : State)
  | handleUpdateDocument (r : State)
  | handleDelete (r : State) (id : Nat)
  | handleFileUpload (r : State) (documentId : Nat)
  | handleFileDownload (filename : String)
  | handleDeleteFile (r : State) (documentId : Nat)
  | handleShowOcr (documentId : Nat)
deriving DecidableEq, Repr

/-- A request in flight and the handler waiting for it. -/
structure Pending where
  request : Request
  cont : Cont
deriving DecidableEq, Repr

/-- The component together with its environment. -/
structure World where
  st : State
  /-- Value of `localStorage.getItem('token')`; `none` is `null`. -/
  token : Option String
  /-- Every request handed to `fetch` so far, oldest first. -/
  sent : List Request
  /-- The requests whose response has not arrived yet, oldest first. -/
  pending : List Pending
  /-- The messages passed to `alert`, oldest first. -/
  alerts : List String
  /-- The file names saved by `handleFileDownload`, oldest first. -/
  downloads : List String
deriving DecidableEq, Repr

/-- The initial values passed to `useState`. -/
def State.initial : State where
  user := none
  userRef := 0
  documents := []
  isAddingOrEditing := false
  editingId := none
  searchTerm := ""
  activeSearchTerm := ""
  searchInOcr := false
  isLoading := true
  showAuthModal := false
  authMode := AuthMode.login
  showOcrModal := false
  currentOcrText := ""
  currentOcrDocumentTitle := ""
  isOcrLoading := false
  ocrSearchKeyword := ""
  cachedOcrTexts := []
  documentFormData := { title := "", number := "", date := "", description := "" }
  selectedFile := none
  authFormData := { username := "", password := "", email := "", firstName := "", lastName := "" }

/-- The world before the component is mounted, with a given stored token. -/
def World.initial (token : Option String) : World where
  st := State.initial
  token := token
  sent := []
  pending := []
  alerts := []
  downloads := []

/-! ## Setters and effects -/

/-- Sets `user`; a non-null value is a fresh object. -/
def setUser (data : Option Payload) (w : World) : World :=
  { w with st := { w.st with user := data,
                             userRef := if data.isSome then w.st.userRef + 1 else w.st.userRef } }

def setDocuments (docs : List Document) (w : World) : World :=
  { w with st := { w.st with documents := docs } }

def setIsAddingOrEditing (b : Bool) (w : World) : World :=
  { w with st := { w.st with isAddingOrEditing := b } }

def setEditingId (id : Option Nat) (w : World) : World :=
  { w with st := { w.st with editingId := id } }

def setSearchTerm (t : String) (w : World) : World :=
  { w with st := { w.st with searchTerm := t } }

def setActiveSearchTerm (t : String) (w : World) : World :=
  { w with st := { w.st with activeSearchTerm := t } }

def setSearchInOcr (b : Bool) (w : World) : World :=
  { w with st := { w.st with searchInOcr := b } }

def setIsLoading (b : Bool) (w : World) : World :=
  { w with st := { w.st with isLoading := b } }

def setShowAuthModal (b : Bool) (w : World) : World :=
  { w with st := { w.st with showAuthModal := b } }

def setAuthMode (m : AuthMode) (w : World) : World :=
  { w with st := { w.st with authMode := m } }

def setShowOcrModal (b : Bool) (w : World) : World :=
  { w with st := { w.st with showOcrModal := b } }

def setCurrentOcrText (t : String) (w : World) : World :=
  { w with st := { w.st with currentOcrText := t } }

def setCurrentOcrDocumentTitle (t : String) (w : World) : World :=
  { w with st := { w.st with currentOcrDocumentTitle := t } }

def setIsOcrLoading (b : Bool) (w : World) : World :=
  { w with st := { w.st with isOcrLoading := b } }

def setOcrSearchKeyword (t : String) (w : World) : World :=
  { w with st := { w.st with ocrSearchKeyword := t } }

/-- Calls `setCachedOcrTexts` with a functional updater. -/
def setCachedOcrTexts (f : OcrCache → OcrCache) (w : World) : World :=
  { w with st := { w.st with cachedOcrTexts := f w.st.cachedOcrTexts } }

def setDocumentFormData (d : DocumentFormData) (w : World) : World :=
  { w with st := { w.st with documentFormData := d } }

def setSelectedFile (f : Option String) (w : World) : World :=
  { w with st := { w.st with selectedFile := f } }

def setAuthFormData (d : AuthFormData) (w : World) : World :=
  { w with st := { w.st with authFormData := d } }

/-- The call `alert(msg)`. -/
def alert (msg : String) (w : World) : World :=
  { w with alerts := w.alerts ++ [msg] }

/-- Truthiness of a string or `null`. -/
def truthy (s : Option String) : Bool :=
  match s with
  | some t => t != ""
  | none => false

/-- The result of an awaited `callApi`: the returned value (`none` is `null`)
or the message of the error it throws. -/
abbrev ApiResult := Except String (Option Payload)

/-! ## `callApi` and `handleLogout` (lines 75-118, 157-163) -/

/-- Source `response.ok` (line 102): the status is in the range 200-299. -/
def Response.ok (resp : Response) : Bool :=
  match resp with
  | Response.noContent => true
  | Response.json _ => true
  | _ => false

/-- Source `handleLogout`. -/
def handleLogout (w : World) : World :=
  let w := { w with token := none }            -- localStorage.removeItem('token')
  let w := setUser none w
  let w := setDocuments [] w
  let w := setShowAuthModal true w
  setAuthMode AuthMode.login w

/-- Source `callApi`, up to the `await fetch(...)`: reads the token, builds the
headers and the body, and hands the request to `fetch`.  `k` is the caller
that awaits the result. -/
def callApi (endpoint : String) (method : String) (body : Body) (isFormData : Bool)
    (k : Cont) (w : World) : World :=
  let authorization :=
    match w.token with
    | some t => if truthy (some t) then some ("Bearer " ++ t) else none
    | none => none
  let contentType := if !isFormData then some "application/json" else none
  let req : Request := { endpoint := endpoint, method := method,
                         authorization := authorization, contentType := contentType,
                         body := body }
  { w with sent := w.sent ++ [req], pending := w.pending ++ [{ request := req, cont := k }] }

/-- Source `callApi`, after the `await fetch(...)`: what the caller receives
for each kind of response, and the state change made on the way. -/
def callApiResume (resp : Response) (w : World) : World × ApiResult :=
  match resp with
  | Response.status401 => (handleLogout w, Except.ok none)
  | Response.notOk message =>
      (w, Except.error (if truthy message then message.getD "" else "Something went wrong"))
  | Response.noContent => (w, Except.ok none)
  | Response.json data => (w, Except.ok (some data))
  | Response.thrown message => (w, Except.error message)

/-- The `message` of the `TypeError` thrown when `property` is read from
`null` (the text used by V8). -/
def nullReadMessage (property : String) : String :=
  "Cannot read properties of null (reading \x27" ++ property ++ "\x27)"

/-! ## Document list (lines 166-179) -/

/-- The `endpoint` computed on line 170 from the values of render `r`. -/
def fetchEndpoint (r : State) : String :=
  if r.searchInOcr then "/documents/ocr/search?query=" ++ r.activeSearchTerm
  else "/documents?search=" ++ r.activeSearchTerm

/-- Source `fetchDocuments`, up to the `await`. -/
def fetchDocuments (r : State) (w : World) : World :=
  let w := setIsLoading true w
  callApi (fetchEndpoint r) "GET" Body.empty false Cont.fetchDocuments w

/-- Source `fetchDocuments`, from the `await` on. -/
def fetchDocumentsResume (resp : Response) (w : World) : World :=
  let (w, res) := callApiResume resp w
  let w :=
    match res with
    | Except.ok (some data) => setDocuments (data.content.getD []) w   -- data.content || []
    | Except.ok none => setDocuments [] w        -- data.content throws, caught on line 173
    | Except.error _ => setDocuments [] w
  setIsLoading false w

/-! ## Session (lines 57-65, 121-155) -/

/-- Source `validateToken`, up to the `await`. -/
def validateToken (w : World) : World :=
  callApi "/auth/validate" "GET" Body.empty false Cont.validateToken w

/-- Source `validateToken`, from the `await` on. -/
def validateTokenResume (resp : Response) (w : World) : World :=
  let (w, res) := callApiResume resp w
  let w :=
    match res with
    | Except.ok data => setUser data w
    | Except.error _ => handleLogout w
  setIsLoading false w

/-- The first `useEffect` (lines 57-65), run once after the first render. -/
def mountEffect (w : World) : World :=
  if truthy w.token then validateToken w
  else setShowAuthModal true (setIsLoading false w)

/-- Source `handleAuthSubmit`, up to the `await`. -/
def handleAuthSubmit (r : State) (w : World) : World :=
  if r.authMode = AuthMode.login then
    callApi "/auth/login" "POST"
      (Body.loginJson r.authFormData.username r.authFormData.password) false
      Cont.handleAuthSubmit w
  else
    callApi "/auth/register" "POST" (Body.registerJson r.authFormData) false
      Cont.handleAuthSubmit w

/-- Source `handleAuthSubmit`, from the `await` on. -/
def handleAuthSubmitResume (resp : Response) (w : World) : World :=
  let (w, res) := callApiResume resp w
  match res with
  | Except.ok (some data) =>
      -- localStorage.setItem stores the string form of its argument
      let w := { w with token := some (data.token.getD "undefined") }
      let w := setUser (some data) w
      let w := setShowAuthModal false w
      setAuthFormData { username := "", password := "", email := "", firstName := "",
                        lastName := "" } w
  | Except.ok none => alert (nullReadMessage "token") w   -- data.token throws
  | Except.error message => alert message w

/-! ## Document form (lines 181-202, 225-238) -/

/-- The fields of the document form, the values of `e.target.name`. -/
inductive FormField where
  | title
  | number
  | date
  | description
deriving DecidableEq, Repr

/-- Source `handleInputChange`. -/
def handleInputChange (r : State) (name : FormField) (value : String) (w : World) : World :=
  match name with
  | FormField.title => setDocumentFormData { r.documentFormData with title := value } w
  | FormField.number => setDocumentFormData { r.documentFormData with number := value } w
  | FormField.date => setDocumentFormData { r.documentFormData with date := value } w
  | FormField.description =>
      setDocumentFormData { r.documentFormData with description := value } w

/-- Source `handleFileChange`; `file` is `e.target.files[0]`. -/
def handleFileChange (file : Option String) (w : World) : World :=
  setSelectedFile file w

/-- Source `handleNewDocumentClick`. -/
def handleNewDocumentClick (w : World) : World :=
  let w := setIsAddingOrEditing true w
  let w := setEditingId none w
  let w := setDocumentFormData { title := "", number := "", date := "", description := "" } w
  setSelectedFile none w

/-- Source `handleEdit`. -/
def handleEdit (doc : Document) (w : World) : World :=
  let w := setIsAddingOrEditing true w
  let w := setEditingId (some doc.id) w
  let w := setDocumentFormData { title := doc.title, number := doc.number, date := doc.date,
                                 description := doc.description.getD "" } w
  setSelectedFile none w

/-! ## Mutations (lines 204-223, 240-307, 344-364) -/

/-- The text that a template literal inserts for an id or `null`. -/
def idString (id : Option Nat) : String :=
  match id with
  | some n => toString n
  | none => "null"

/-- Source `handleCreateDocument`, up to the `await`. -/
def handleCreateDocument (r : State) (w : World) : World :=
  callApi "/documents" "POST" (Body.documentForm r.documentFormData r.selectedFile) true
    (Cont.handleCreateDocument r) w

/-- Source `handleCreateDocument`, from the `await` on. -/
def handleCreateDocumentResume (r : State) (resp : Response) (w : World) : World :=
  let (w, res) := callApiResume resp w
  match res with
  | Except.ok _ =>
      let w := fetchDocuments r w
      let w := setIsAddingOrEditing false w
      setSelectedFile none w
  | Except.error message => alert ("Error creating document: " ++ message) w

/-- Source `handleUpdateDocument`, up to the `await`. -/
def handleUpdateDocument (r : State) (w : World) : World :=
  callApi ("/documents/" ++ idString r.editingId) "PUT"
    (Body.documentForm r.documentFormData r.selectedFile) true
    (Cont.handleUpdateDocument r) w

/-- Source `handleUpdateDocument`, from the `await` on. -/
def handleUpdateDocumentResume (r : State) (resp : Response) (w : World) : World :=
  let (w, res) := callApiResume resp w
  match res with
  | Except.ok _ =>
      let w := fetchDocuments r w
      let w := setIsAddingOrEditing false w
      let w := setEditingId none w
      let w := setSelectedFile none w
      setCachedOcrTexts (ocrDelete r.editingId) w
  | Except.error message => alert ("Error updating document: " ++ message) w

/-- Source `handleDelete`, up to the `await`; `confirmed` is the answer given
to `window.confirm`. -/
def handleDelete (r : State) (id : Nat) (confirmed : Bool) (w : World) : World :=
  if confirmed then
    callApi ("/documents/" ++ idString (some id)) "DELETE" Body.empty false
      (Cont.handleDelete r id) w
  else w

/-- Source `handleDelete`, from the `await` on. -/
def handleDeleteResume (r : State) (id : Nat) (resp : Response) (w : World) : World :=
  let (w, res) := callApiResume resp w
  match res with
  | Except.ok _ =>
      let w := fetchDocuments r w
      setCachedOcrTexts (ocrDelete (some id)) w
  | Except.error message => alert ("Error deleting document: " ++ message) w

/-- Source `handleFileUpload`, up to the `await`. -/
def handleFileUpload (r : State) (documentId : Nat) (file : Option String) (w : World) :
    World :=
  callApi ("/documents/" ++ idString (some documentId) ++ "/upload") "POST"
    (Body.fileForm file) true (Cont.handleFileUpload r documentId) w

/-- Source `handleFileUpload`, from the `await` on. -/
def handleFileUploadResume (r : State) (documentId : Nat) (resp : Response) (w : World) :
    World :=
  let (w, res) := callApiResume resp w
  match res with
  | Except.ok _ =>
      let w := fetchDocuments r w
      let w := alert "File uploaded successfully!" w
      setCachedOcrTexts (ocrDelete (some documentId)) w
  | Except.error message => alert ("Error uploading file: " ++ message) w

/-- Source `handleDeleteFile`, up to the `await`. -/
def handleDeleteFile (r : State) (documentId : Nat) (confirmed : Bool) (w : World) : World :=
  if confirmed then
    callApi ("/documents/" ++ idString (some documentId) ++ "/file") "DELETE" Body.empty false
      (Cont.handleDeleteFile r documentId) w
  else w

/-- Source `handleDeleteFile`, from the `await` on. -/
def handleDeleteFileResume (r : State) (documentId : Nat) (resp : Response) (w : World) :
    World :=
  let (w, res) := callApiResume resp w
  match res with
  | Except.ok _ =>
      let w := fetchDocuments r w
      let w := alert "File deleted successfully!" w
      setCachedOcrTexts (ocrDelete (some documentId)) w
  | Except.error message => alert ("Error deleting file: " ++ message) w

/-! ## Download and OCR text (lines 309-342, 367-404) -/

/-- Source `handleFileDownload`, up to the `await fetch(...)`.  This handler
does not go through `callApi`; the template literal on line 315 inserts the
text `null` when no token is stored. -/
def handleFileDownload (documentId : Nat) (filename : String) (w : World) : World :=
  let req : Request := { endpoint := "/documents/" ++ idString (some documentId) ++ "/download",
                         method := "GET",
                         authorization := some ("Bearer " ++ w.token.getD "null"),
                         contentType := none, body := Body.empty }
  { w with sent := w.sent ++ [req],
           pending := w.pending ++ [{ request := req, cont := Cont.handleFileDownload filename }] }

/-- Source `handleFileDownload`, from the `await fetch(...)` on. -/
def handleFileDownloadResume (filename : String) (resp : Response) (w : World) : World :=
  match resp with
  | Response.status401 => handleLogout w
  | Response.notOk _ => alert ("Error downloading file: " ++ "File download failed") w
  | Response.thrown message => alert ("Error downloading file: " ++ message) w
  | Response.noContent => { w with downloads := w.downloads ++ [filename] }
  | Response.json _ => { w with downloads := w.downloads ++ [filename] }

/-- The endpoint of the per-document OCR text. -/
def ocrEndpoint (documentId : Nat) : String :=
  "/documents/" ++ idString (some documentId) ++ "/ocr/text"

/-- Source `handleShowOcr`, up to the `await`.  The block that would read
`cachedOcrTexts` (lines 374-378) is commented out in the source. -/
def handleShowOcr (r : State) (documentId : Nat) (documentTitle : String) (w : World) :
    World :=
  let w := setIsOcrLoading true w
  let w := setShowOcrModal true w
  let w := setCurrentOcrDocumentTitle documentTitle w
  let w := setOcrSearchKeyword r.activeSearchTerm w
  let w := setIsOcrLoading true w
  callApi (ocrEndpoint documentId) "GET" Body.empty false (Cont.handleShowOcr documentId) w

/-- Source `handleShowOcr`, from the `await` on. -/
def handleShowOcrResume (documentId : Nat) (resp : Response) (w : World) : World :=
  let (w, res) := callApiResume resp w
  let w :=
    match res with
    | Except.ok (some data) =>
        let ocrText :=
          if truthy data.ocrText then data.ocrText.getD ""
          else "No OCR text available for this document."
        let w := setCurrentOcrText ocrText w
        setCachedOcrTexts (ocrSet (some documentId) ocrText) w
    | Except.ok none => setCurrentOcrText "Failed to load OCR text." w   -- data.ocrText throws
    | Except.error _ => setCurrentOcrText "Failed to load OCR text." w
  setIsOcrLoading false w

/-- Source `handleCloseOcrModal`. -/
def handleCloseOcrModal (w : World) : World :=
  let w := setShowOcrModal false w
  let w := setCurrentOcrText "" w
  let w := setCurrentOcrDocumentTitle "" w
  setOcrSearchKeyword "" w

/-! ## Search bar (lines 407-426) -/

/-- Source `handleSearchInputChange`; `value` is `e.target.value`. -/
def handleSearchInputChange (value : String) (w : World) : World :=
  setSearchTerm value w

/-- Source `handleSearchKeyPress`; `key` is `e.key`. -/
def handleSearchKeyPress (r : State) (key : String) (w : World) : World :=
  if key = "Enter" then setActiveSearchTerm r.searchTerm w else w

/-- Source `handleClearSearch`. -/
def handleClearSearch (w : World) : World :=
  let w := setSearchTerm "" w
  setActiveSearchTerm "" w

/-- Source `handleToggleSearchInOcr`. -/
def handleToggleSearchInOcr (r : State) (w : World) : World :=
  let w := setSearchInOcr (!r.searchInOcr) w
  setActiveSearchTerm r.searchTerm w

/-! ## Events, effects and steps -/

/-- Runs the rest of the handler `k` on the response `resp`. -/
def resume (k : Cont) (resp : Response) (w : World) : World :=
  match k with
  | Cont.validateToken => validateTokenResume resp w
  | Cont.handleAuthSubmit => handleAuthSubmitResume resp w
  | Cont.fetchDocuments => fetchDocumentsResume resp w
  | Cont.handleCreateDocument r => handleCreateDocumentResume r resp w
  | Cont.handleUpdateDocument r => handleUpdateDocumentResume r resp w
  | Cont.handleDelete r id => handleDeleteResume r id resp w
  | Cont.handleFileUpload r documentId => handleFileUploadResume r documentId resp w
  | Cont.handleFileDownload filename => handleFileDownloadResume filename resp w
  | Cont.handleDeleteFile r documentId => handleDeleteFileResume r documentId resp w
  | Cont.handleShowOcr documentId => handleShowOcrResume documentId resp w

/-- The response `resp` arrives for the request at position `k` of the
requests in flight. -/
def deliver (k : Nat) (resp : Response) (w : World) : World :=
  match w.pending[k]? with
  | some p => resume p.cont resp { w with pending := w.pending.eraseIdx k }
  | none => w

/-- The fields of the authentication form. -/
inductive AuthField where
  | username
  | password
  | email
  | firstName
  | lastName
deriving DecidableEq, Repr

/-- The inline `onChange` handlers of the authentication form (lines 474-523). -/
def authInput (r : State) (field : AuthField) (value : String) (w : World) : World :=
  match field with
  | AuthField.username => setAuthFormData { r.authFormData with username := value } w
  | AuthField.password => setAuthFormData { r.authFormData with password := value } w
  | AuthField.email => setAuthFormData { r.authFormData with email := value } w
  | AuthField.firstName => setAuthFormData { r.authFormData with firstName := value } w
  | AuthField.lastName => setAuthFormData { r.authFormData with lastName := value } w

/-- The inline `onClick` handler on line 548. -/
def toggleAuthMode (r : State) (w : World) : World :=
  setAuthMode (if r.authMode = AuthMode.login then AuthMode.register else AuthMode.login) w

/-- The inline `onSubmit` handler of the document form (lines 651-658);
`editingId` is tested for truthiness. -/
def submitDocumentForm (r : State) (w : World) : World :=
  match r.editingId with
  | some n => if n ≠ 0 then handleUpdateDocument r w else handleCreateDocument r w
  | none => handleCreateDocument r w

/-- Whatever can happen to the component: the first render, a user action
on an element, or the arrival of a response. -/
inductive Event where
  | mount
  | response (k : Nat) (resp : Response)
  | authInput (field : AuthField) (value : String)
  | toggleAuthMode
  | authSubmit
  | logoutClick
  | newDocumentClick
  | searchInputChange (value : String)
  | searchKeyPress (key : String)
  | clearSearch
  | toggleSearchInOcr
  | inputChange (name : FormField) (value : String)
  | fileChange (file : Option String)
  | cancelForm
  | submitForm
  | edit (doc : Document)
  | delete (doc : Document) (confirmed : Bool)
  | fileUpload (doc : Document) (files : Option (Option String))
  | fileDownload (doc : Document)
  | deleteFile (doc : Document) (confirmed : Bool)
  | showOcr (doc : Document)
  | closeOcrModal
deriving DecidableEq, Repr

/-- Runs the handler bound to an event.  The handlers of a user action are
those of the current render, so they read the current state. -/
def dispatch (e : Event) (w : World) : World :=
  match e with
  | Event.mount => mountEffect w
  | Event.response k resp => deliver k resp w
  | Event.authInput field value => authInput w.st field value w
  | Event.toggleAuthMode => toggleAuthMode w.st w
  | Event.authSubmit => handleAuthSubmit w.st w
  | Event.logoutClick => handleLogout w
  | Event.newDocumentClick => handleNewDocumentClick w
  | Event.searchInputChange value => handleSearchInputChange value w
  | Event.searchKeyPress key => handleSearchKeyPress w.st key w
  | Event.clearSearch => handleClearSearch w
  | Event.toggleSearchInOcr => handleToggleSearchInOcr w.st w
  | Event.inputChange name value => handleInputChange w.st name value w
  | Event.fileChange file => handleFileChange file w
  | Event.cancelForm => setIsAddingOrEditing false w
  | Event.submitForm => submitDocumentForm w.st w
  | Event.edit doc => handleEdit doc w
  | Event.delete doc confirmed => handleDelete w.st doc.id confirmed w
  | Event.fileUpload doc files =>
      match files with
      | some file => handleFileUpload w.st doc.id file w     -- e.target.files && ...
      | none => w
  | Event.fileDownload doc => handleFileDownload doc.id doc.originalFilename w
  | Event.deleteFile doc confirmed => handleDeleteFile w.st doc.id confirmed w
  | Event.showOcr doc => handleShowOcr w.st doc.id doc.title w
  | Event.closeOcrModal => handleCloseOcrModal w

/-- The dependency array `[user, activeSearchTerm, searchInOcr]` of the second
`useEffect` (line 72); `user` is compared by identity. -/
def fetchDeps (s : State) : Option Nat × String × Bool :=
  (if s.user.isSome then some s.userRef else none, s.activeSearchTerm, s.searchInOcr)

/-- The second `useEffect` (lines 68-72), run after the render that follows a
handler: `before` is the state of the previous render. -/
def fetchEffect (before : State) (w : World) : World :=
  if fetchDeps before = fetchDeps w.st then w
  else if w.st.user.isSome then fetchDocuments w.st w
  else w

/-- One event: its handler runs to its end (or to its `await`), the component
renders again, and the effects of that render run. -/
def step (e : Event) (w : World) : World :=
  fetchEffect w.st (dispatch e w)

/-- A sequence of events, in order. -/
def run (es : List Event) (w : World) : World :=
  es.foldl (fun acc e => step e acc) w

/-- Whether the element that raises the event is on screen.  While
`isLoading` is true the component renders only the loading screen
(lines 450-456). -/
def enabled (e : Event) (w : World) : Bool :=
  match e with
  | Event.mount => w == World.initial w.token
  | Event.response k _ => decide (k < w.pending.length)
  | Event.authInput _ _ => !w.st.isLoading && w.st.showAuthModal
  | Event.toggleAuthMode => !w.st.isLoading && w.st.showAuthModal
  | Event.authSubmit => !w.st.isLoading && w.st.showAuthModal
  | Event.logoutClick => !w.st.isLoading && w.st.user.isSome
  | Event.newDocumentClick => !w.st.isLoading
  | Event.searchInputChange _ => !w.st.isLoading
  | Event.searchKeyPress _ => !w.st.isLoading
  | Event.clearSearch => !w.st.isLoading && w.st.searchTerm != ""
  | Event.toggleSearchInOcr => !w.st.isLoading
  | Event.inputChange _ _ => !w.st.isLoading && w.st.isAddingOrEditing
  | Event.fileChange _ => !w.st.isLoading && w.st.isAddingOrEditing
  | Event.cancelForm => !w.st.isLoading && w.st.isAddingOrEditing
  | Event.submitForm => !w.st.isLoading && w.st.isAddingOrEditing
  | Event.edit doc => !w.st.isLoading && w.st.documents.contains doc
  | Event.delete doc _ => !w.st.isLoading && w.st.documents.contains doc
  | Event.fileUpload doc _ => !w.st.isLoading && w.st.documents.contains doc && !doc.hasFile
  | Event.fileDownload doc => !w.st.isLoading && w.st.documents.contains doc && doc.hasFile
  | Event.deleteFile doc _ => !w.st.isLoading && w.st.documents.contains doc && doc.hasFile
  | Event.showOcr doc => !w.st.isLoading && w.st.documents.contains doc && doc.hasFile
  | Event.closeOcrModal => !w.st.isLoading && w.st.showOcrModal

/-- Runs the events as long as each one can happen on the screen it meets;
`none` when some event cannot. -/
def runEnabled (es : List Event) (w : World) : Option World :=
  match es with
  | [] => some w
  | e :: rest => if enabled e w then runEnabled rest (step e w) else none

/-! ## Results of responses and sample data for the concrete checks -/

/-- A document without a file. -/
def docX : Document :=
  { id := 1, title := "X", number := "N-1", date := "2024-01-01", description := none,
    hasFile := false, originalFilename := "", fileSize := 0 }

/-- A document matching the term `a`. -/
def docA : Document := { docX with id := 2, title := "A" }

/-- A document matching the term `b`. -/
def docB : Document := { docX with id := 3, title := "B" }

/-- A document with an attached file. -/
def docScan : Document :=
  { docX with id := 7, title := "Scan", hasFile := true, originalFilename := "scan.pdf",
              fileSize := 2048 }

/-- The page object a list endpoint returns for `docs`. -/
def pageOf (docs : List Document) : Payload :=
  { content := some docs, ocrText := none, token := none, username := none,
    firstName := none, lastName := none }

/-- The object the login endpoint returns. -/
def loginPayload : Payload :=
  { content := none, ocrText := none, token := some "t0", username := some "u",
    firstName := some "F", lastName := some "L" }

/-- The object the OCR endpoint returns for `text`. -/
def ocrPayload (text : Option String) : Payload :=
  { content := none, ocrText := text, token := none, username := none,
    firstName := none, lastName := none }

/-- The events that lead from the first render to a logged-in session that
shows `docs`: no stored token, login, and the list fetch of the effect. -/
def loginTrace (docs : List Document) : List Event :=
  [ Event.mount, Event.authSubmit, Event.response 0 (Response.json loginPayload),
    Event.response 0 (Response.json (pageOf docs)) ]

/-- A logged-in world showing `docs`, with nothing in flight. -/
def loggedIn (docs : List Document) : World :=
  run (loginTrace docs) (World.initial none)

/-- The list that the response of a list fetch puts on display: its `content`
array, and the empty list in every other case (lines 172 and 175). -/
def fetchResult (resp : Response) : List Document :=
  match resp with
  | Response.json data => data.content.getD []
  | _ => []

/-- The events of a session in which the list fetch for the term `a` is
answered after the list fetch for the term `b`.  A delete is started first;
its answer starts a list fetch of its own, whose completion brings the search
bar back on screen while the fetch for `a` is still in flight. -/
def staleTrace : List Event :=
  loginTrace [docX] ++
  [ Event.delete docX true,
    Event.searchInputChange "a", Event.searchKeyPress "Enter",
    Event.response 0 Response.noContent,
    Event.response 1 (Response.json (pageOf [])),
    Event.searchInputChange "b", Event.searchKeyPress "Enter",
    Event.response 1 (Response.json (pageOf [docB])),
    Event.response 0 (Response.json (pageOf [docA])) ]

/-- The events of a session that shows `docScan` and has fetched its OCR text
once: the endpoint answered `hello`. -/
def ocrTrace : List Event :=
  loginTrace [docScan] ++
  [ Event.showOcr docScan, Event.response 0 (Response.json (ocrPayload (some "hello"))) ]

/-- The world at the end of `ocrTrace`. -/
def withCachedOcr : World :=
  run ocrTrace (World.initial none)

/-- The world in which, after `ocrTrace`, the edit form of `docScan` has been
opened and submitted: the update request is in flight. -/
def updatingScan : World :=
  run [Event.closeOcrModal, Event.edit docScan, Event.submitForm] withCachedOcr

/-- The request `callApi` sends for the OCR text of `docScan` in the sample
session. -/
def scanOcrRequest : Request :=
  { endpoint := "/documents/7/ocr/text", method := "GET", authorization := some "Bearer t0",
    contentType := some "application/json", body := Body.empty }

/-- The world in which, in a session showing `docX`, a file has been chosen
for upload to `docX`: the upload request is in flight. -/
def uploadingX : World :=
  run [Event.fileUpload docX (some (some "scan.pdf"))] (loggedIn [docX])

/-- The world in which, in a session showing `docX`, the text `inv` has been
typed into the search bar and not committed. -/
def typedInv : World :=
  run [Event.searchInputChange "inv"] (loggedIn [docX])

/-- The world in which the login form has been submitted on the first screen
and the login request is in flight. -/
def loggingIn : World :=
  run [Event.mount, Event.authSubmit] (World.initial none)

/-- The world in which, in a session showing `docScan`, the term `inv` has
been committed and the list fetch for it is in flight. -/
def fetchingInv : World :=
  run [Event.searchInputChange "inv", Event.searchKeyPress "Enter"] (loggedIn [docScan])

/-- The world in which, in a session showing `docScan` with the committed
term `inv`, the OCR view of `docScan` has been opened and the OCR request is
in flight. -/
def showingOcr : World :=
  run [Event.response 0 (Response.json (pageOf [docScan])), Event.showOcr docScan] fetchingInv

/-- A second document with an attached file. -/
def docInvoice : Document :=
  { docX with id := 8, title := "Invoice", hasFile := true, originalFilename := "inv.pdf",
              fileSize := 4096 }

/-- The world in which the OCR texts of `docScan` and `docInvoice` are both
in the cache and the delete of `docScan` is in flight. -/
def deletingScan : World :=
  run [ Event.showOcr docScan, Event.response 0 (Response.json (ocrPayload (some "hello"))),
        Event.showOcr docInvoice, Event.response 0 (Response.json (ocrPayload (some "world"))),
        Event.closeOcrModal, Event.delete docScan true ]
    (loggedIn [docScan, docInvoice])

/-- Whether the authentication prompt is on screen.  While `isLoading` is
true the component returns the loading screen alone (lines 450-456); otherwise
the prompt is rendered when `showAuthModal` is true (line 460). -/
def authPromptVisible (s : State) : Bool :=
  !s.isLoading && s.showAuthModal

/-- The world in which, in a session showing `docX`, the form of a new
document has been opened and submitted: the create request is in flight. -/
def creatingDoc : World :=
  run [Event.newDocumentClick, Event.submitForm] (loggedIn [docX])

/-- The world in which, in a session showing `docScan`, the deletion of its
file has been confirmed: the delete-file request is in flight. -/
def detachingScan : World :=
  run [Event.deleteFile docScan true] (loggedIn [docScan])

/-! ## Highlighting (lines 429-447)

A string is modelled by the list of its characters.  The component compares
whole literal strings only, so that working on characters instead of UTF-16
code units makes no difference. -/

/-- White space and line terminators by their code, as removed by
`String.prototype.trim`. -/
def trimCodes : List Nat :=
  [9, 10, 11, 12, 13, 32, 160, 5760, 8192, 8193, 8194, 8195, 8196, 8197, 8198, 8199, 8200,
   8201, 8202, 8232, 8233, 8239, 8287, 12288, 65279]

/-- The test `!keyword || keyword.trim() === ''` of line 430: the keyword is
empty or made of white space only. -/
def isBlank (keyword : List Char) : Bool :=
  keyword.all (fun c => trimCodes.contains c.toNat)

/-- The characters of the class `[.*+?^${}()|[\]\\]` on line 434. -/
def escapeClass : List Char :=
  ['.', '*', '+', '?', '^', '$', '\x7b', '\x7d', '(', ')', '|', '[', ']', '\\']

/-- The call `keyword.replace(/[.*+?^${}()|[\]\\]/g, '\\$&')` of line 434:
a backslash is put before every character of the class. -/
def escapeKeyword (keyword : List Char) : List Char :=
  match keyword with
  | [] => []
  | c :: rest =>
      if escapeClass.contains c then '\\' :: c :: escapeKeyword rest
      else c :: escapeKeyword rest

/-- The syntax characters of the pattern grammar of ECMAScript. -/
def syntaxCharacters : List Char :=
  ['^', '$', '\\', '.', '*', '+', '?', '(', ')', '[', ']', '\x7b', '\x7d', '|']

/-- Reads the inside of a capturing group up to its closing parenthesis, which
must end the pattern.  Only pattern characters and identity escapes of syntax
characters are modelled: the result is the sequence of characters that the
group matches literally, and `none` for any other pattern. -/
def parseGroupBody (pattern : List Char) : Option (List Char) :=
  match pattern with
  | [] => none
  | c :: rest =>
      if c = ')' then (if rest.isEmpty then some [] else none)
      else if c = '\\' then
        match rest with
        | d :: rest2 =>
            if syntaxCharacters.contains d then (parseGroupBody rest2).map (fun l => d :: l)
            else none
        | [] => none
      else if syntaxCharacters.contains c then none
      else (parseGroupBody rest).map (fun l => c :: l)

/-- The pattern of `new RegExp(source, 'gi')` for the sources the component
can build: one capturing group around literal characters. -/
def compileLiteralGroup (source : List Char) : Option (List Char) :=
  match source with
  | c :: body => if c = '(' then parseGroupBody body else none
  | [] => none

/-- The case tables of the JavaScript engine.  They are part of the Unicode
data of the engine, not of the repository, and are taken as a parameter. -/
structure CaseTables where
  /-- The canonical form of a code unit under the flag `i` without the flag
  `u`: its upper case, when that is a single code unit. -/
  canonicalize : Nat → Nat
  /-- The call `s.toLowerCase()`, as the codes of the resulting string. -/
  toLowerCase : List Char → List Nat

/-- Whether the literal characters `lits` match at the start of `s` under the
flag `i`: character by character, the canonical forms are the same. -/
def matchesAt (T : CaseTables) (lits : List Char) (s : List Char) : Bool :=
  match lits, s with
  | [], _ => true
  | _ :: _, [] => false
  | l :: ls, c :: cs =>
      T.canonicalize l.toNat == T.canonicalize c.toNat && matchesAt T ls cs

/-- The loop of `String.prototype.split` with a regular expression that is a
capturing group around the non-empty literal `lits`: `rest` is the text from
the scan position on, `cur` holds (reversed) the characters passed since the
end of the last match.  A match closes the current part, adds the captured
text as a part of its own and moves the scan position behind it.  `fuel`
bounds the number of turns; when it runs out the text left is returned as it
is. -/
def splitLoop (T : CaseTables) (lits : List Char) (fuel : Nat) (rest : List Char)
    (cur : List Char) : List (List Char) :=
  match fuel, rest with
  | 0, rest => [cur.reverse ++ rest]
  | _ + 1, [] => [cur.reverse]
  | fuel + 1, c :: cs =>
      if matchesAt T lits (c :: cs) then
        cur.reverse :: (c :: cs).take lits.length
          :: splitLoop T lits fuel ((c :: cs).drop lits.length) []
      else splitLoop T lits fuel cs (c :: cur)

/-- The call `text.split(regexp)` for such a regular expression; the loop
makes at most one turn per character of the text. -/
def split (T : CaseTables) (lits : List Char) (text : List Char) : List (List Char) :=
  splitLoop T lits (text.length + 1) text []

/-- One element of what `highlightText` returns: a piece of the text, inside
a highlighting `span` or plain. -/
structure Part where
  text : String
  highlighted : Bool
deriving DecidableEq, Repr

/-- Source `highlightText`.  When the keyword is blank the text itself is
returned, which is one plain piece.  A pattern outside the modelled ones gives
no result here; `compileLiteralGroup_escapeKeyword` shows that this case does
not occur. -/
def highlightText (T : CaseTables) (text keyword : String) : List Part :=
  if isBlank keyword.data then [{ text := text, highlighted := false }]
  else
    match compileLiteralGroup (('(' :: escapeKeyword keyword.data) ++ [')']) with
    | some lits =>
        (split T lits text.data).map (fun part =>
          { text := String.mk part,
            highlighted := T.toLowerCase part == T.toLowerCase keyword.data })
    | none => []

/-- A piece `m` is an occurrence of the keyword: it has the length of the
keyword and the keyword matches it as a literal, compared without regard to
case as the regular expression does. -/
def isOccurrence (T : CaseTables) (keyword : List Char) (m : List Char) : Bool :=
  m.length == keyword.length && matchesAt T keyword m

/-- No occurrence of the keyword starts inside the piece `u` of a text in
which `u` is followed by `after`. -/
def noOccurrenceStartsIn (T : CaseTables) (keyword : List Char) (u after : List Char) :
    Prop :=
  ∀ i, i < u.length → matchesAt T keyword ((u ++ after).drop i) = false

/-- The text that a list of parts stands for. -/
def textOf (parts : List Part) : List Char :=
  (parts.map (fun p => p.text.data)).flatten

/-- The parts are plain and highlighted pieces in turn, starting and ending
with a plain piece; every highlighted piece is an occurrence of the keyword,
and no occurrence starts inside a plain piece.  So the highlighted pieces are
the occurrences found by scanning from the left and resuming behind each
occurrence found. -/
inductive LeftmostMarked (T : CaseTables) (keyword : List Char) : List Part → Prop where
  | last (u : List Char) :
      noOccurrenceStartsIn T keyword u [] →
      LeftmostMarked T keyword [{ text := String.mk u, highlighted := false }]
  | cons (u m : List Char) (rest : List Part) :
      noOccurrenceStartsIn T keyword u (m ++ textOf rest) →
      isOccurrence T keyword m = true →
      LeftmostMarked T keyword rest →
      LeftmostMarked T keyword
        ({ text := String.mk u, highlighted := false }
          :: { text := String.mk m, highlighted := true } :: rest)

/-- The canonical forms of one sample table.  It follows ECMAScript on the
ASCII letters and on the Greek sigmas (small sigma 963 and final sigma 962
both have the capital sigma 931 as upper case) and maps every other code to
itself.  It only serves to evaluate the definitions at concrete inputs made of
these characters. -/
def sampleCanonicalize (n : Nat) : Nat :=
  if n = 963 ∨ n = 962 then 931
  else if 97 ≤ n ∧ n ≤ 122 then n - 32
  else n

/-- The lower case of a code in the sample table: as in ECMAScript on ASCII
(and on both small sigmas, which are their own lower case), every other code
being mapped to itself. -/
def sampleToLowerCaseCode (n : Nat) : Nat :=
  if 65 ≤ n ∧ n ≤ 90 then n + 32 else n

/-- The sample table. -/
def sampleTables : CaseTables where
  canonicalize := sampleCanonicalize
  toLowerCase := fun s => s.map (fun c => sampleToLowerCaseCode c.toNat)

/-- Every character of `s` is an ASCII character. -/
def isAscii (s : List Char) : Prop :=
  ∀ c ∈ s, c.toNat < 128

instance (s : List Char) : Decidable (isAscii s) :=
  inferInstanceAs (Decidable (∀ c ∈ s, c.toNat < 128))

/-! # Theorems -/

/-! ## Basic facts about the cache, the effect and delivery -/

theorem ocrGet_ocrDelete_self (key : CacheKey) (c : OcrCache) :
    ocrGet key (ocrDelete key c) = none := by
  unfold ocrGet ocrDelete
  simp [List.find?_filter]

theorem fetchEffect_st_documents (b : State) (w : World) :
    (fetchEffect b w).st.documents = w.st.documents := by
  unfold fetchEffect
  split
  · rfl
  · split <;> rfl

theorem fetchEffect_st_cachedOcrTexts (b : State) (w : World) :
    (fetchEffect b w).st.cachedOcrTexts = w.st.cachedOcrTexts := by
  unfold fetchEffect
  split
  · rfl
  · split <;> rfl

theorem fetchEffect_of_user_none (b : State) (w : World) (h : w.st.user = none) :
    fetchEffect b w = w := by
  unfold fetchEffect
  split
  · rfl
  · simp [h]

theorem fetchEffect_of_deps_eq (b : State) (w : World) (h : fetchDeps b = fetchDeps w.st) :
    fetchEffect b w = w := by
  unfold fetchEffect
  simp [h]

theorem fetchEffect_pending_getElem? (b : State) (w : World) (i : Nat) (p : Pending)
    (h : w.pending[i]? = some p) : (fetchEffect b w).pending[i]? = some p := by
  have hlt : i < w.pending.length := by
    rcases Nat.lt_or_ge i w.pending.length with hlt | hge
    · exact hlt
    · rw [List.getElem?_eq_none hge] at h
      cases h
  unfold fetchEffect
  split
  · exact h
  · split
    · show (w.pending ++ _)[i]? = some p
      rw [List.getElem?_append_left hlt]
      exact h
    · exact h

theorem deliver_of_getElem? (k : Nat) (resp : Response) (w : World) (p : Pending)
    (h : w.pending[k]? = some p) :
    deliver k resp w = resume p.cont resp { w with pending := w.pending.eraseIdx k } := by
  unfold deliver
  rw [h]

theorem fetchDocumentsResume_pending (resp : Response) (w : World) :
    (fetchDocumentsResume resp w).pending = w.pending := by
  cases resp <;> rfl

/-! ## C1: out-of-order list responses -/

theorem fetchDocumentsResume_documents (resp : Response) (w : World) :
    (fetchDocumentsResume resp w).st.documents = fetchResult resp := by
  cases resp <;> rfl

/-- C1, as stated, fails.  In a session whose every event can happen on the
screen it meets, the list fetches for `a` and then `b` are in flight together
(in that order); the response for `b` arrives first and the one for `a` last.
At the end the committed term is `b`, yet the list on display is the result
for `a`, not the result for `b`: the stale response was not discarded. -/
theorem stale_response_overwrites_list :
    (runEnabled (staleTrace.take 11) (World.initial none)).map
        (fun w => w.pending.map (fun p => (p.request.endpoint, p.cont)))
      = some [("/documents?search=a", Cont.fetchDocuments),
              ("/documents?search=b", Cont.fetchDocuments)]
    ∧ staleTrace.drop 11 = [Event.response 1 (Response.json (pageOf [docB])),
                            Event.response 0 (Response.json (pageOf [docA]))]
    ∧ (runEnabled staleTrace (World.initial none)).map
        (fun w => (w.st.activeSearchTerm, w.st.searchInOcr, w.st.documents))
      = some ("b", false, [docA])
    ∧ fetchResult (Response.json (pageOf [docB])) ≠ [docA] := by
  refine ⟨by rfl, by rfl, by rfl, by decide⟩

/-- C1, amended: no response of a list fetch is ever discarded.  When two list
fetches are in flight, the one at position `i` sent before the one at position
`j`, and the response of the later one arrives first, the list on display
after both responses is the result of the response that arrived last, that is
of the fetch sent first; in between it is the result of the other one. -/
theorem last_response_wins (w : World) (i j : Nat) (qa qb : Request) (ra rb : Response)
    (hij : i < j)
    (ha : w.pending[i]? = some { request := qa, cont := Cont.fetchDocuments })
    (hb : w.pending[j]? = some { request := qb, cont := Cont.fetchDocuments }) :
    (step (Event.response j rb) w).st.documents = fetchResult rb
    ∧ (step (Event.response i ra) (step (Event.response j rb) w)).st.documents
        = fetchResult ra := by
  have h1 : dispatch (Event.response j rb) w
      = fetchDocumentsResume rb { w with pending := w.pending.eraseIdx j } := by
    show deliver j rb w = _
    rw [deliver_of_getElem? j rb w _ hb]
    rfl
  have hp : (step (Event.response j rb) w).pending[i]?
      = some { request := qa, cont := Cont.fetchDocuments } := by
    unfold step
    apply fetchEffect_pending_getElem?
    rw [h1, fetchDocumentsResume_pending]
    show (w.pending.eraseIdx j)[i]? = _
    rw [List.getElem?_eraseIdx_of_lt _ _ _ hij]
    exact ha
  constructor
  · unfold step
    rw [fetchEffect_st_documents, h1, fetchDocumentsResume_documents]
  · generalize step (Event.response j rb) w = w1 at hp
    unfold step
    rw [fetchEffect_st_documents]
    show (deliver i ra w1).st.documents = _
    rw [deliver_of_getElem? i ra w1 _ hp]
    exact fetchDocumentsResume_documents ra _

/-- C1, amended, at a concrete world: the fetches for `a` and `b` of
`staleTrace` are in flight, `b` is answered with `docB` and then `a` with
`docA`. -/
theorem last_response_wins_witness :
    ((step (Event.response 1 (Response.json (pageOf [docB])))
        (run (staleTrace.take 11) (World.initial none))).st.documents = [docB])
    ∧ (step (Event.response 0 (Response.json (pageOf [docA])))
        (step (Event.response 1 (Response.json (pageOf [docB])))
          (run (staleTrace.take 11) (World.initial none)))).st.documents = [docA] :=
  last_response_wins (run (staleTrace.take 11) (World.initial none)) 0 1
    { endpoint := "/documents?search=a", method := "GET", authorization := some "Bearer t0",
      contentType := some "application/json", body := Body.empty }
    { endpoint := "/documents?search=b", method := "GET", authorization := some "Bearer t0",
      contentType := some "application/json", body := Body.empty }
    (Response.json (pageOf [docA])) (Response.json (pageOf [docB]))
    (by decide) (by rfl) (by rfl)

/-! ## C2: the cache is written but never read -/

/-- C2 on the code: `handleShowOcr` has stored `hello` for document 7 and
nothing has invalidated it, yet the next `handleShowOcr` for document 7 sends
a second request to the OCR endpoint of that document, and the text shown is
what that second call returns (`changed`), not the stored text. -/
theorem second_show_ocr_calls_remote_again :
    (runEnabled ocrTrace (World.initial none)).map
        (fun w => (ocrGet (some 7) w.st.cachedOcrTexts, w.st.currentOcrText,
                   w.sent.filter (fun q => q == scanOcrRequest)))
      = some (some "hello", "hello", [scanOcrRequest])
    ∧ (runEnabled (ocrTrace ++ [Event.showOcr docScan]) (World.initial none)).map
        (fun w => (ocrGet (some 7) w.st.cachedOcrTexts,
                   w.sent.filter (fun q => q == scanOcrRequest),
                   w.pending.map (fun p => p.request)))
      = some (some "hello", [scanOcrRequest, scanOcrRequest], [scanOcrRequest])
    ∧ (runEnabled (ocrTrace ++ [Event.showOcr docScan,
          Event.response 0 (Response.json (ocrPayload (some "changed")))])
        (World.initial none)).map (fun w => w.st.currentOcrText)
      = some "changed" := by
  refine ⟨by rfl, by rfl, by rfl⟩

/-! ## C3: invalidation after a successful mutation -/

/-- C3: when the response to an update of document `id` (with or without a
file part), to a delete of `id`, to an upload to `id` or to a file deletion
on `id` is a success, the cache has no entry for `id` once the response has
been handled, whatever the cache held before. -/
theorem cache_miss_after_successful_mutation (w : World) (k : Nat) (q : Request) (c : Cont)
    (r : State) (id : Nat) (resp : Response)
    (hk : w.pending[k]? = some { request := q, cont := c })
    (hc : (c = Cont.handleUpdateDocument r ∧ r.editingId = some id)
        ∨ c = Cont.handleDelete r id
        ∨ c = Cont.handleFileUpload r id
        ∨ c = Cont.handleDeleteFile r id)
    (hok : resp.ok = true) :
    ocrGet (some id) (step (Event.response k resp) w).st.cachedOcrTexts = none := by
  unfold step
  rw [fetchEffect_st_cachedOcrTexts]
  show ocrGet (some id) (deliver k resp w).st.cachedOcrTexts = none
  rw [deliver_of_getElem? k resp w _ hk]
  rcases hc with ⟨rfl, he⟩ | rfl | rfl | rfl
  · cases resp <;> simp [Response.ok] at hok
    · show ocrGet (some id) (ocrDelete r.editingId _) = none
      rw [he]
      exact ocrGet_ocrDelete_self _ _
    · show ocrGet (some id) (ocrDelete r.editingId _) = none
      rw [he]
      exact ocrGet_ocrDelete_self _ _
  all_goals
    cases resp <;> simp [Response.ok] at hok <;> exact ocrGet_ocrDelete_self _ _

/-- C3 at a concrete world: the cache holds `hello` for document 7, the
update of document 7 (sent without a file part) is answered with a success,
and the entry is gone. -/
theorem cache_miss_after_successful_mutation_witness :
    ocrGet (some 7) updatingScan.st.cachedOcrTexts = some "hello"
    ∧ ocrGet (some 7)
        (step (Event.response 0 (Response.json (pageOf []))) updatingScan).st.cachedOcrTexts
      = none :=
  ⟨by rfl,
   cache_miss_after_successful_mutation updatingScan 0
     { endpoint := "/documents/7", method := "PUT", authorization := some "Bearer t0",
       contentType := none,
       body := Body.documentForm
         { title := "Scan", number := "N-1", date := "2024-01-01", description := "" } none }
     (Cont.handleUpdateDocument
       (run [Event.closeOcrModal, Event.edit docScan] withCachedOcr).st)
     (run [Event.closeOcrModal, Event.edit docScan] withCachedOcr).st 7
     (Response.json (pageOf [])) (by rfl) (Or.inl ⟨rfl, by rfl⟩) (by rfl)⟩

/-! ## C4: logout -/

/-- C4, as stated, fails: the cache holds the OCR text of document 7 when the
user logs out, and it still holds it afterwards. -/
theorem logout_keeps_ocr_cache :
    (runEnabled (ocrTrace ++ [Event.logoutClick]) (World.initial none)).map
        (fun w => (w.st.user, w.st.cachedOcrTexts))
      = some (none, [(some 7, "hello")]) := by
  rfl

/-- C4, amended: from any state, logout discards the stored token, sets
`user` to null, empties the document list and reopens the authentication
prompt in login mode; it sends no request and leaves the OCR cache as it
was. -/
theorem logout_effect (w : World) :
    (step Event.logoutClick w).token = none
    ∧ (step Event.logoutClick w).st.user = none
    ∧ (step Event.logoutClick w).st.documents = []
    ∧ (step Event.logoutClick w).st.showAuthModal = true
    ∧ (step Event.logoutClick w).st.authMode = AuthMode.login
    ∧ (step Event.logoutClick w).sent = w.sent
    ∧ (step Event.logoutClick w).st.cachedOcrTexts = w.st.cachedOcrTexts := by
  have h : step Event.logoutClick w = handleLogout w :=
    fetchEffect_of_user_none w.st (handleLogout w) rfl
  rw [h]
  exact ⟨rfl, rfl, rfl, rfl, rfl, rfl, rfl⟩

/-! ## C5: the state and the screen after a 401 -/

theorem resume_status401 (c : Cont) (w : World) :
    (resume c Response.status401 w).st.user = none
    ∧ (resume c Response.status401 w).token = none
    ∧ (resume c Response.status401 w).st.documents = []
    ∧ (resume c Response.status401 w).st.showAuthModal = true
    ∧ (resume c Response.status401 w).st.authMode = AuthMode.login := by
  cases c <;> exact ⟨rfl, rfl, rfl, rfl, rfl⟩

/-- The state after a 401, whichever operation is waiting for the request at
position `k` (validate, login or register, list fetch, create, update, delete,
upload, delete-file, download, OCR fetch) and whatever the state: after the
handler has run, `user` is null, the stored token is removed, the document
list is empty and `showAuthModal` is true, in login mode.  Whether the prompt
is on screen also depends on `isLoading`, which this statement leaves open. -/
theorem unauthenticated_after_401 (w : World) (k : Nat) (p : Pending)
    (hk : w.pending[k]? = some p) :
    (step (Event.response k Response.status401) w).st.user = none
    ∧ (step (Event.response k Response.status401) w).token = none
    ∧ (step (Event.response k Response.status401) w).st.documents = []
    ∧ (step (Event.response k Response.status401) w).st.showAuthModal = true
    ∧ (step (Event.response k Response.status401) w).st.authMode = AuthMode.login := by
  have hd : dispatch (Event.response k Response.status401) w
      = resume p.cont Response.status401 { w with pending := w.pending.eraseIdx k } :=
    deliver_of_getElem? k Response.status401 w p hk
  have hr := resume_status401 p.cont { w with pending := w.pending.eraseIdx k }
  have hs : step (Event.response k Response.status401) w
      = resume p.cont Response.status401 { w with pending := w.pending.eraseIdx k } := by
    unfold step
    rw [hd]
    exact fetchEffect_of_user_none _ _ hr.1
  rw [hs]
  exact hr

/-- C5 on the code.  A create, an update, a delete, an upload and a delete-file
request are in flight, each in a logged-in session, and each is answered with
a 401.  Afterwards `user` is null, the stored token is removed, the document
list is empty and `showAuthModal` is true, as the claim says; but the handler
has gone on to call `fetchDocuments`, so `isLoading` is true, the component
renders the loading screen alone, and the authentication prompt is not on
screen: its form cannot be submitted.  After a 401 on a list fetch, which has
no success path to run into, the prompt is on screen. -/
theorem prompt_hidden_after_401_on_mutation :
    ((creatingDoc.pending.map (fun p => (p.request.method, p.request.endpoint))
        = [("POST", "/documents")]
      ∧ updatingScan.pending.map (fun p => (p.request.method, p.request.endpoint))
        = [("PUT", "/documents/7")]
      ∧ deletingScan.pending.map (fun p => (p.request.method, p.request.endpoint))
        = [("DELETE", "/documents/7")]
      ∧ uploadingX.pending.map (fun p => (p.request.method, p.request.endpoint))
        = [("POST", "/documents/1/upload")]
      ∧ detachingScan.pending.map (fun p => (p.request.method, p.request.endpoint))
        = [("DELETE", "/documents/7/file")]
      ∧ fetchingInv.pending.map (fun p => (p.request.method, p.request.endpoint))
        = [("GET", "/documents?search=inv")]))
    ∧ ([creatingDoc, updatingScan, deletingScan, uploadingX, detachingScan].map
        (fun w =>
          ((step (Event.response 0 Response.status401) w).st.user,
           (step (Event.response 0 Response.status401) w).token,
           (step (Event.response 0 Response.status401) w).st.documents,
           (step (Event.response 0 Response.status401) w).st.showAuthModal,
           (step (Event.response 0 Response.status401) w).st.isLoading,
           authPromptVisible (step (Event.response 0 Response.status401) w).st,
           enabled Event.authSubmit (step (Event.response 0 Response.status401) w)))
        = List.replicate 5 (none, none, [], true, true, false, false))
    ∧ ((step (Event.response 0 Response.status401) fetchingInv).st.user = none
      ∧ (step (Event.response 0 Response.status401) fetchingInv).st.isLoading = false
      ∧ authPromptVisible (step (Event.response 0 Response.status401) fetchingInv).st
          = true) := by
  refine ⟨⟨by rfl, by rfl, by rfl, by rfl, by rfl, by rfl⟩, by rfl, ⟨by rfl, by rfl, by rfl⟩⟩

/-! ## C6: a failed create or update changes nothing -/

/-- C6: sending a create or an update request changes no state variable.
When `callApi` then throws for that request (a status outside 2xx other than
401, or a transport failure; `msg` is the message of the error), handling the
response leaves every state variable as it was (the document list, the OCR
cache, `isAddingOrEditing` and `editingId` among them), sends no request, and
shows exactly one alert, which carries `msg`. -/
theorem failed_create_or_update_is_atomic (w : World) (k : Nat) (q : Request) (c : Cont)
    (r : State) (resp : Response) (msg : String)
    (hk : w.pending[k]? = some { request := q, cont := c })
    (hc : c = Cont.handleCreateDocument r ∨ c = Cont.handleUpdateDocument r)
    (hthrow : (callApiResume resp w).2 = Except.error msg) :
    (handleCreateDocument r w).st = w.st
    ∧ (handleUpdateDocument r w).st = w.st
    ∧ (step (Event.response k resp) w).st = w.st
    ∧ (step (Event.response k resp) w).sent = w.sent
    ∧ (step (Event.response k resp) w).pending = w.pending.eraseIdx k
    ∧ (step (Event.response k resp) w).token = w.token
    ∧ (step (Event.response k resp) w).alerts
        = w.alerts ++ [(if c = Cont.handleCreateDocument r then "Error creating document: "
                        else "Error updating document: ") ++ msg] := by
  refine ⟨rfl, rfl, ?_⟩
  have hd : dispatch (Event.response k resp) w
      = resume c resp { w with pending := w.pending.eraseIdx k } :=
    deliver_of_getElem? k resp w _ hk
  rcases hc with rfl | rfl
  · have hs : step (Event.response k resp) w
        = alert ("Error creating document: " ++ msg)
            { w with pending := w.pending.eraseIdx k } := by
      unfold step
      rw [hd]
      cases resp
      case status401 => cases hthrow
      case noContent => cases hthrow
      case json d => cases hthrow
      case notOk m =>
        injection hthrow with hm
        subst hm
        exact fetchEffect_of_deps_eq _ _ rfl
      case thrown m =>
        injection hthrow with hm
        subst hm
        exact fetchEffect_of_deps_eq _ _ rfl
    rw [hs]
    exact ⟨rfl, rfl, rfl, rfl, by simp [alert]⟩
  · have hs : step (Event.response k resp) w
        = alert ("Error updating document: " ++ msg)
            { w with pending := w.pending.eraseIdx k } := by
      unfold step
      rw [hd]
      cases resp
      case status401 => cases hthrow
      case noContent => cases hthrow
      case json d => cases hthrow
      case notOk m =>
        injection hthrow with hm
        subst hm
        exact fetchEffect_of_deps_eq _ _ rfl
      case thrown m =>
        injection hthrow with hm
        subst hm
        exact fetchEffect_of_deps_eq _ _ rfl
    rw [hs]
    exact ⟨rfl, rfl, rfl, rfl, by simp [alert]⟩

/-- C6 at a concrete world: the update of document 7 is in flight with the
edit form open, and the server rejects it with status 400 and a message. -/
theorem failed_create_or_update_is_atomic_witness :
    (updatingScan.st.isAddingOrEditing = true ∧ updatingScan.st.editingId = some 7)
    ∧ (step (Event.response 0 (Response.notOk (some "Title is required"))) updatingScan).st
        = updatingScan.st
    ∧ (step (Event.response 0 (Response.notOk (some "Title is required"))) updatingScan).sent
        = updatingScan.sent
    ∧ (step (Event.response 0 (Response.notOk (some "Title is required"))) updatingScan).alerts
        = ["Error updating document: Title is required"] :=
  have h := failed_create_or_update_is_atomic updatingScan 0
     { endpoint := "/documents/7", method := "PUT", authorization := some "Bearer t0",
       contentType := none,
       body := Body.documentForm
         { title := "Scan", number := "N-1", date := "2024-01-01", description := "" } none }
     (Cont.handleUpdateDocument
       (run [Event.closeOcrModal, Event.edit docScan] withCachedOcr).st)
     (run [Event.closeOcrModal, Event.edit docScan] withCachedOcr).st
     (Response.notOk (some "Title is required")) "Title is required"
     (by rfl) (Or.inr rfl) (by rfl)
  ⟨⟨by rfl, by rfl⟩, h.2.2.1, h.2.2.2.1, h.2.2.2.2.2.2⟩

/-! ## C7: a 401 response does not stop the success path of a mutation -/

/-- C7 on the code.  The update of document 7 is in flight with the edit form
open and the OCR text of document 7 in the cache; the upload to document 1 is
in flight in another session (both worlds are reached from the first render by
events that can happen on screen).  Each is answered with a 401.  `callApi` logs
out and returns null without throwing, so the rest of the handler runs: the
update handler sends a list fetch, closes the edit form and removes the cache
entry; the upload handler sends a list fetch and reports success. -/
theorem success_path_runs_after_401 :
    (runEnabled (ocrTrace ++ [Event.closeOcrModal, Event.edit docScan, Event.submitForm])
        (World.initial none) = some updatingScan
      ∧ runEnabled (loginTrace [docX] ++ [Event.fileUpload docX (some (some "scan.pdf"))])
        (World.initial none) = some uploadingX)
    ∧ (updatingScan.st.isAddingOrEditing = true
      ∧ updatingScan.st.editingId = some 7
      ∧ ocrGet (some 7) updatingScan.st.cachedOcrTexts = some "hello")
    ∧ ((step (Event.response 0 Response.status401) updatingScan).st.isAddingOrEditing = false
      ∧ (step (Event.response 0 Response.status401) updatingScan).st.editingId = none
      ∧ ocrGet (some 7)
          (step (Event.response 0 Response.status401) updatingScan).st.cachedOcrTexts = none
      ∧ (step (Event.response 0 Response.status401) updatingScan).sent
          = updatingScan.sent ++
              [{ endpoint := "/documents?search=", method := "GET", authorization := none,
                 contentType := some "application/json", body := Body.empty }]
      ∧ (step (Event.response 0 Response.status401) updatingScan).st.isLoading = true)
    ∧ ((step (Event.response 0 Response.status401) uploadingX).alerts
          = ["File uploaded successfully!"]
      ∧ (step (Event.response 0 Response.status401) uploadingX).sent
          = uploadingX.sent ++
              [{ endpoint := "/documents?search=", method := "GET", authorization := none,
                 contentType := some "application/json", body := Body.empty }]
      ∧ (step (Event.response 0 Response.status401) uploadingX).st.user = none) := by
  refine ⟨⟨by rfl, by rfl⟩, ⟨by rfl, by rfl, by rfl⟩, ⟨by rfl, by rfl, by rfl, by rfl, by rfl⟩,
    ⟨by rfl, by rfl, by rfl⟩⟩

/-! ## C8: typing in the search bar -/

theorem step_searchInputChange (text : String) (w : World) :
    step (Event.searchInputChange text) w = setSearchTerm text w :=
  fetchEffect_of_deps_eq _ _ rfl

theorem run_searchInputChange (texts : List String) (w : World) :
    run (texts.map Event.searchInputChange) w
      = setSearchTerm (texts.getLast?.getD w.st.searchTerm) w := by
  induction texts generalizing w with
  | nil => rfl
  | cons t ts ih =>
    show run (ts.map Event.searchInputChange) (step (Event.searchInputChange t) w) = _
    rw [step_searchInputChange, ih, List.getLast?_cons]
    rfl

/-- C8: after any finite sequence of `handleSearchInputChange` calls, the
draft term is the last text typed (or the old draft when nothing was typed)
and nothing else has changed: the committed term, the OCR mode, the document
list, the cache and every other state variable are as before, and no request
has been sent.  The endpoint of a list fetch does not depend on the draft
term. -/
theorem draft_edits_never_fetch (w : World) (texts : List String) (r : State) (t : String) :
    (run (texts.map Event.searchInputChange) w).st
        = { w.st with searchTerm := texts.getLast?.getD w.st.searchTerm }
    ∧ (run (texts.map Event.searchInputChange) w).sent = w.sent
    ∧ (run (texts.map Event.searchInputChange) w).pending = w.pending
    ∧ (run (texts.map Event.searchInputChange) w).token = w.token
    ∧ fetchEndpoint { r with searchTerm := t } = fetchEndpoint r := by
  rw [run_searchInputChange]
  exact ⟨rfl, rfl, rfl, rfl, rfl⟩

/-! ## C9: clearing the search bar -/

/-- C9 on the code: in a logged-in session the committed term is empty, `inv`
has been typed but not committed (so the clear button is on screen), and
clearing sends no request at all, although the comment on line 419 says that
the call triggers a search with the empty term. -/
theorem clear_without_committed_term_sends_nothing :
    typedInv.st.user.isSome = true
    ∧ typedInv.st.searchTerm = "inv"
    ∧ typedInv.st.activeSearchTerm = ""
    ∧ enabled Event.clearSearch typedInv = true
    ∧ (step Event.clearSearch typedInv).sent = typedInv.sent
    ∧ (step Event.clearSearch typedInv).pending = [] := by
  refine ⟨by rfl, by rfl, by rfl, by rfl, by rfl, by rfl⟩

/-- What `handleClearSearch` and the effect that follows do in every world:
afterwards the draft term and the committed term are both empty.  When the
session is authenticated and the committed term was not empty, exactly one
request is sent, a list fetch with the empty term on the endpoint of the
current OCR mode; otherwise no request is sent. -/
theorem clear_effect (w : World) :
    (step Event.clearSearch w).st.searchTerm = ""
    ∧ (step Event.clearSearch w).st.activeSearchTerm = ""
    ∧ (step Event.clearSearch w).st.searchInOcr = w.st.searchInOcr
    ∧ (if w.st.user.isSome = true ∧ w.st.activeSearchTerm ≠ "" then
        ∃ q : Request, (step Event.clearSearch w).sent = w.sent ++ [q]
          ∧ q.method = "GET"
          ∧ q.endpoint = (if w.st.searchInOcr then "/documents/ocr/search?query="
                          else "/documents?search=") ++ ""
      else (step Event.clearSearch w).sent = w.sent) := by
  by_cases hu : w.st.user.isSome = true
  · by_cases ht : w.st.activeSearchTerm = ""
    · have hs : step Event.clearSearch w = handleClearSearch w := by
        apply fetchEffect_of_deps_eq
        show (_, w.st.activeSearchTerm, _) = ((_, "", _) : Option Nat × String × Bool)
        rw [ht]
        rfl
      rw [hs]
      refine ⟨rfl, rfl, rfl, ?_⟩
      rw [if_neg (fun h => h.2 ht)]
      rfl
    · have hs : step Event.clearSearch w
          = fetchDocuments (handleClearSearch w).st (handleClearSearch w) := by
        unfold step fetchEffect
        have hne : ¬ fetchDeps w.st = fetchDeps (dispatch Event.clearSearch w).st := by
          simp [fetchDeps, dispatch, handleClearSearch, setSearchTerm, setActiveSearchTerm, ht]
        rw [if_neg hne]
        have hu2 : (dispatch Event.clearSearch w).st.user.isSome = true := hu
        rw [if_pos hu2]
        rfl
      rw [hs]
      refine ⟨rfl, rfl, rfl, ?_⟩
      rw [if_pos ⟨hu, ht⟩]
      refine ⟨_, rfl, rfl, ?_⟩
      show fetchEndpoint (handleClearSearch w).st = _
      unfold fetchEndpoint
      by_cases ho : w.st.searchInOcr = true
      · have : (handleClearSearch w).st.searchInOcr = true := ho
        simp [this, ho]
        rfl
      · have : ¬ (handleClearSearch w).st.searchInOcr = true := ho
        simp [this, ho]
        rfl
  · have hs : step Event.clearSearch w = handleClearSearch w := by
      apply fetchEffect_of_user_none
      show w.st.user = none
      cases h : w.st.user with
      | none => rfl
      | some u => simp [h] at hu
    rw [hs]
    refine ⟨rfl, rfl, rfl, ?_⟩
    rw [if_neg (fun h => hu h.1)]
    rfl

/-! ## C10: committing the draft term -/

/-- C10: a key other than Enter changes nothing.  Enter sets the committed
term to the draft term and leaves the draft term and the OCR mode as they
were; when the session is authenticated and the committed term thereby
changes, exactly one request is sent, a list fetch whose query term is the
draft term, on the endpoint of the current OCR mode. -/
theorem commit_effect (w : World) (key : String) :
    (key ≠ "Enter" → step (Event.searchKeyPress key) w = w)
    ∧ (key = "Enter" →
        (step (Event.searchKeyPress key) w).st.activeSearchTerm = w.st.searchTerm
        ∧ (step (Event.searchKeyPress key) w).st.searchTerm = w.st.searchTerm
        ∧ (step (Event.searchKeyPress key) w).st.searchInOcr = w.st.searchInOcr)
    ∧ (key = "Enter" → w.st.user.isSome = true → w.st.searchTerm ≠ w.st.activeSearchTerm →
        ∃ q : Request, (step (Event.searchKeyPress key) w).sent = w.sent ++ [q]
          ∧ q.method = "GET"
          ∧ q.endpoint = (if w.st.searchInOcr then "/documents/ocr/search?query="
                          else "/documents?search=") ++ w.st.searchTerm) := by
  refine ⟨?_, ?_, ?_⟩
  · intro hkey
    have hd : dispatch (Event.searchKeyPress key) w = w := by
      show handleSearchKeyPress w.st key w = w
      unfold handleSearchKeyPress
      rw [if_neg hkey]
    unfold step
    rw [hd]
    exact fetchEffect_of_deps_eq _ _ rfl
  · intro hkey
    subst hkey
    unfold step fetchEffect
    split
    · exact ⟨rfl, rfl, rfl⟩
    · split <;> exact ⟨rfl, rfl, rfl⟩
  · intro hkey hu hne
    subst hkey
    have hd : dispatch (Event.searchKeyPress "Enter") w = setActiveSearchTerm w.st.searchTerm w :=
      rfl
    have hs : step (Event.searchKeyPress "Enter") w
        = fetchDocuments (setActiveSearchTerm w.st.searchTerm w).st
            (setActiveSearchTerm w.st.searchTerm w) := by
      unfold step fetchEffect
      rw [hd]
      have hdeps : ¬ fetchDeps w.st = fetchDeps (setActiveSearchTerm w.st.searchTerm w).st := by
        simp [fetchDeps, setActiveSearchTerm]
        exact fun h => hne h.symm
      rw [if_neg hdeps]
      have hu2 : (setActiveSearchTerm w.st.searchTerm w).st.user.isSome = true := hu
      rw [if_pos hu2]
    rw [hs]
    refine ⟨_, rfl, rfl, ?_⟩
    show fetchEndpoint (setActiveSearchTerm w.st.searchTerm w).st = _
    unfold fetchEndpoint
    by_cases ho : w.st.searchInOcr = true
    · have : (setActiveSearchTerm w.st.searchTerm w).st.searchInOcr = true := ho
      simp [this, ho]
      rfl
    · have : ¬ (setActiveSearchTerm w.st.searchTerm w).st.searchInOcr = true := ho
      simp [this, ho]
      rfl

/-- C10 at a concrete world: `inv` is typed over an empty committed term in a
logged-in session.  Enter commits `inv` and sends one list fetch for `inv`;
the key `a` changes nothing. -/
theorem commit_effect_witness :
    (step (Event.searchKeyPress "a") typedInv = typedInv)
    ∧ ((step (Event.searchKeyPress "Enter") typedInv).st.activeSearchTerm = "inv"
      ∧ (step (Event.searchKeyPress "Enter") typedInv).st.searchTerm = "inv"
      ∧ (step (Event.searchKeyPress "Enter") typedInv).st.searchInOcr = false)
    ∧ (∃ q : Request, (step (Event.searchKeyPress "Enter") typedInv).sent
          = typedInv.sent ++ [q]
        ∧ q.method = "GET"
        ∧ q.endpoint = "/documents?search=inv") :=
  ⟨(commit_effect typedInv "a").1 (by decide),
   (commit_effect typedInv "Enter").2.1 rfl,
   (commit_effect typedInv "Enter").2.2 rfl (by rfl) (by decide)⟩

/-! ## C11: toggling the OCR mode -/

theorem endpoint_variants_differ (s t : String) :
    "/documents/ocr/search?query=" ++ s ≠ "/documents?search=" ++ t := by
  intro h
  have hd := congrArg String.data h
  simp [String.data_append] at hd

/-- C11: `handleToggleSearchInOcr` flips the OCR mode, sets the committed term
to the draft term and leaves the draft term as it was.  The endpoint of a list
fetch of the new state is the OCR-search variant with the draft term as query
if and only if the OCR mode is now true, and the metadata variant with the
draft term as query if and only if it is now false.  When the session is
authenticated exactly one request is sent, the list fetch on that endpoint;
otherwise none is sent. -/
theorem toggle_effect (w : World) :
    (step Event.toggleSearchInOcr w).st.searchInOcr = (!w.st.searchInOcr)
    ∧ (step Event.toggleSearchInOcr w).st.activeSearchTerm = w.st.searchTerm
    ∧ (step Event.toggleSearchInOcr w).st.searchTerm = w.st.searchTerm
    ∧ ((step Event.toggleSearchInOcr w).st.searchInOcr = true
        ↔ fetchEndpoint (step Event.toggleSearchInOcr w).st
            = "/documents/ocr/search?query=" ++ w.st.searchTerm)
    ∧ ((step Event.toggleSearchInOcr w).st.searchInOcr = false
        ↔ fetchEndpoint (step Event.toggleSearchInOcr w).st
            = "/documents?search=" ++ w.st.searchTerm)
    ∧ (if w.st.user.isSome = true then
        ∃ q : Request, (step Event.toggleSearchInOcr w).sent = w.sent ++ [q]
          ∧ q.method = "GET"
          ∧ q.endpoint = fetchEndpoint (step Event.toggleSearchInOcr w).st
      else (step Event.toggleSearchInOcr w).sent = w.sent) := by
  have hst : (step Event.toggleSearchInOcr w).st.searchInOcr = (!w.st.searchInOcr)
      ∧ (step Event.toggleSearchInOcr w).st.activeSearchTerm = w.st.searchTerm
      ∧ (step Event.toggleSearchInOcr w).st.searchTerm = w.st.searchTerm := by
    unfold step fetchEffect
    split
    · exact ⟨rfl, rfl, rfl⟩
    · split <;> exact ⟨rfl, rfl, rfl⟩
  obtain ⟨h1, h2, h3⟩ := hst
  have hep : fetchEndpoint (step Event.toggleSearchInOcr w).st
      = if (!w.st.searchInOcr) = true then "/documents/ocr/search?query=" ++ w.st.searchTerm
        else "/documents?search=" ++ w.st.searchTerm := by
    unfold fetchEndpoint
    rw [h1, h2]
  refine ⟨h1, h2, h3, ?_, ?_, ?_⟩
  · rw [hep, h1]
    by_cases hb : (!w.st.searchInOcr) = true
    · simp [hb]
    · rw [if_neg hb]
      constructor
      · intro h
        exact absurd h hb
      · intro h
        exact absurd h.symm (endpoint_variants_differ _ _)
  · rw [hep, h1]
    by_cases hb : (!w.st.searchInOcr) = true
    · rw [if_pos hb]
      constructor
      · intro h
        rw [hb] at h
        cases h
      · intro h
        exact absurd h (endpoint_variants_differ _ _)
    · rw [if_neg hb]
      simp at hb
      simp [hb]
  · have hne : ¬ fetchDeps w.st = fetchDeps (dispatch Event.toggleSearchInOcr w).st := by
      intro h
      have h3 : w.st.searchInOcr = (!w.st.searchInOcr) := congrArg (fun p => p.2.2) h
      cases hb : w.st.searchInOcr <;> rw [hb] at h3 <;> cases h3
    by_cases hu : w.st.user.isSome = true
    · rw [if_pos hu]
      have hs : step Event.toggleSearchInOcr w
          = fetchDocuments (dispatch Event.toggleSearchInOcr w).st
              (dispatch Event.toggleSearchInOcr w) := by
        unfold step fetchEffect
        rw [if_neg hne]
        have hu2 : (dispatch Event.toggleSearchInOcr w).st.user.isSome = true := hu
        rw [if_pos hu2]
      rw [hs]
      exact ⟨_, rfl, rfl, rfl⟩
    · rw [if_neg hu]
      have hs : step Event.toggleSearchInOcr w = dispatch Event.toggleSearchInOcr w := by
        unfold step fetchEffect
        rw [if_neg hne]
        have hu2 : ¬ (dispatch Event.toggleSearchInOcr w).st.user.isSome = true := hu
        rw [if_neg hu2]
      rw [hs]
      rfl

/-! ## C12: the list fetch -/

theorem step_response_fetchDocuments (w : World) (k : Nat) (q : Request) (resp : Response)
    (hk : w.pending[k]? = some { request := q, cont := Cont.fetchDocuments }) :
    step (Event.response k resp) w
      = fetchDocumentsResume resp { w with pending := w.pending.eraseIdx k } := by
  have hd : dispatch (Event.response k resp) w
      = fetchDocumentsResume resp { w with pending := w.pending.eraseIdx k } :=
    deliver_of_getElem? k resp w _ hk
  unfold step
  rw [hd]
  cases resp
  case status401 => exact fetchEffect_of_user_none _ _ rfl
  all_goals exact fetchEffect_of_deps_eq _ _ rfl

/-- C12: `fetchDocuments` sends exactly one request, a GET whose endpoint is
chosen by the OCR mode alone and whose query string is the committed term.
Whatever the response to it, handling the response sends nothing more, puts on
display the `content` array of a successful response that has one, and the
empty list in every other case (401, another status outside 2xx, a thrown
error, no content, no `content` field), and leaves `isLoading` false. -/
theorem fetch_effect (r : State) (w : World) (k : Nat) (q : Request) (resp : Response)
    (docs : List Document) (d : Payload) (m : Option String) (t : String)
    (hk : w.pending[k]? = some { request := q, cont := Cont.fetchDocuments }) :
    (∃ q0 : Request, (fetchDocuments r w).sent = w.sent ++ [q0]
        ∧ (fetchDocuments r w).pending
            = w.pending ++ [{ request := q0, cont := Cont.fetchDocuments }]
        ∧ q0.method = "GET"
        ∧ q0.endpoint = (if r.searchInOcr then "/documents/ocr/search?query="
                         else "/documents?search=") ++ r.activeSearchTerm)
    ∧ (step (Event.response k resp) w).st.documents = fetchResult resp
    ∧ fetchResult (Response.json { d with content := some docs }) = docs
    ∧ fetchResult (Response.json { d with content := none }) = []
    ∧ fetchResult Response.status401 = []
    ∧ fetchResult (Response.notOk m) = []
    ∧ fetchResult (Response.thrown t) = []
    ∧ fetchResult Response.noContent = []
    ∧ (step (Event.response k resp) w).st.isLoading = false
    ∧ (step (Event.response k resp) w).sent = w.sent := by
  refine ⟨⟨_, rfl, rfl, rfl, ?_⟩, ?_, rfl, rfl, rfl, rfl, rfl, rfl, ?_, ?_⟩
  · show fetchEndpoint r = _
    unfold fetchEndpoint
    split <;> rfl
  · rw [step_response_fetchDocuments w k q resp hk]
    exact fetchDocumentsResume_documents resp _
  · rw [step_response_fetchDocuments w k q resp hk]
    cases resp <;> rfl
  · rw [step_response_fetchDocuments w k q resp hk]
    cases resp <;> rfl

/-- C12 at a concrete world: the list fetch for the committed term `inv` is
in flight; it is answered with a page holding `docA`. -/
theorem fetch_effect_witness :
    (fetchingInv.pending.map (fun p => p.request.endpoint) = ["/documents?search=inv"]
      ∧ fetchingInv.st.isLoading = true)
    ∧ (step (Event.response 0 (Response.json (pageOf [docA]))) fetchingInv).st.documents
        = [docA]
    ∧ (step (Event.response 0 (Response.json (pageOf [docA]))) fetchingInv).st.isLoading
        = false :=
  have h := fetch_effect fetchingInv.st fetchingInv 0
    { endpoint := "/documents?search=inv", method := "GET", authorization := some "Bearer t0",
      contentType := some "application/json", body := Body.empty }
    (Response.json (pageOf [docA])) [docA] (pageOf []) none "" (by rfl)
  ⟨⟨by rfl, by rfl⟩, h.2.1, h.2.2.2.2.2.2.2.2.1⟩

/-! ## C13: login and register -/

/-- C13 on the code.  The login request is in flight on the first screen.
Answered with a status 400 and a message, the alert shows the message of the
server; answered with a token, the token is stored, the user is set and the
prompt closes.  Answered with a 401, `callApi` returns null, reading
`data.token` throws, and the alert shows the message of that `TypeError`, not
a message of the server; the session stays logged out and no token is
stored. -/
theorem login_401_reports_type_error :
    runEnabled [Event.mount, Event.authSubmit] (World.initial none) = some loggingIn
    ∧ loggingIn.pending.map (fun p => (p.request.endpoint, p.request.method, p.cont))
        = [("/auth/login", "POST", Cont.handleAuthSubmit)]
    ∧ (step (Event.response 0 (Response.notOk (some "Invalid credentials"))) loggingIn).alerts
        = ["Invalid credentials"]
    ∧ ((step (Event.response 0 (Response.json loginPayload)) loggingIn).token = some "t0"
      ∧ (step (Event.response 0 (Response.json loginPayload)) loggingIn).st.user
          = some loginPayload
      ∧ (step (Event.response 0 (Response.json loginPayload)) loggingIn).st.showAuthModal
          = false)
    ∧ ((step (Event.response 0 Response.status401) loggingIn).alerts
          = ["Cannot read properties of null (reading \x27token\x27)"]
      ∧ (step (Event.response 0 Response.status401) loggingIn).st.user = none
      ∧ (step (Event.response 0 Response.status401) loggingIn).token = none) := by
  refine ⟨by rfl, by rfl, by rfl, ⟨by rfl, by rfl, by rfl⟩, ⟨by rfl, by rfl, by rfl⟩⟩

/-! ## C14: validation of a stored token -/

/-- C14: `validateToken` sends one GET to the identity endpoint.  On a
successful identity response `user` becomes exactly the returned object and
the stored token is kept.  On a status outside 2xx, on a 401 and on a thrown
(network) error `user` is null, the stored token is removed and the
authentication prompt is open.  In every case `isLoading` is false when the
handler is done, and `user` is non-null if and only if the response was a
successful identity response. -/
theorem validate_effect (w : World) (resp : Response) (d : Payload) (m : Option String)
    (t : String) :
    (∃ q : Request, (validateToken w).sent = w.sent ++ [q]
        ∧ (validateToken w).pending = w.pending ++ [{ request := q, cont := Cont.validateToken }]
        ∧ q.method = "GET" ∧ q.endpoint = "/auth/validate")
    ∧ ((validateTokenResume (Response.json d) w).st.user = some d
      ∧ (validateTokenResume (Response.json d) w).token = w.token)
    ∧ ((validateTokenResume (Response.notOk m) w).st.user = none
      ∧ (validateTokenResume (Response.notOk m) w).token = none
      ∧ (validateTokenResume (Response.notOk m) w).st.showAuthModal = true)
    ∧ ((validateTokenResume Response.status401 w).st.user = none
      ∧ (validateTokenResume Response.status401 w).token = none
      ∧ (validateTokenResume Response.status401 w).st.showAuthModal = true)
    ∧ ((validateTokenResume (Response.thrown t) w).st.user = none
      ∧ (validateTokenResume (Response.thrown t) w).token = none
      ∧ (validateTokenResume (Response.thrown t) w).st.showAuthModal = true)
    ∧ (validateTokenResume resp w).st.isLoading = false
    ∧ ((validateTokenResume resp w).st.user.isSome = true ↔ ∃ d0, resp = Response.json d0) := by
  refine ⟨⟨_, rfl, rfl, rfl, rfl⟩, ⟨rfl, rfl⟩, ⟨rfl, rfl, rfl⟩, ⟨rfl, rfl, rfl⟩,
    ⟨rfl, rfl, rfl⟩, ?_, ?_⟩
  · cases resp <;> rfl
  · cases resp
    case json d0 =>
      constructor
      · intro _
        exact ⟨d0, rfl⟩
      · intro _
        rfl
    all_goals
      constructor
      · intro h
        cases h
      · intro h
        obtain ⟨d0, h0⟩ := h
        cases h0

/-! ## C15: fetching the OCR text -/

theorem ocrGet_ocrSet_self (key : CacheKey) (text : String) (c : OcrCache) :
    ocrGet key (ocrSet key text c) = some text := by
  simp [ocrGet, ocrSet]

theorem step_showOcr (w : World) (doc : Document) :
    step (Event.showOcr doc) w = handleShowOcr w.st doc.id doc.title w := by
  show fetchEffect w.st (handleShowOcr w.st doc.id doc.title w) = _
  apply fetchEffect_of_deps_eq
  cases w with
  | mk st token sent pending alerts downloads =>
    cases st
    rfl

theorem handleShowOcr_facts (r : State) (id : Nat) (title : String) (w : World) :
    (handleShowOcr r id title w).st.ocrSearchKeyword = r.activeSearchTerm
    ∧ ∃ q0 : Request, (handleShowOcr r id title w).sent = w.sent ++ [q0]
          ∧ (handleShowOcr r id title w).pending
              = w.pending ++ [{ request := q0, cont := Cont.handleShowOcr id }]
          ∧ q0.method = "GET" ∧ q0.endpoint = ocrEndpoint id := by
  cases w with
  | mk st token sent pending alerts downloads =>
    cases st
    exact ⟨rfl, _, rfl, rfl, rfl, rfl⟩

theorem handleShowOcrResume_json (id : Nat) (d : Payload) (w : World) :
    (handleShowOcrResume id (Response.json d) w).st.currentOcrText
        = (if truthy d.ocrText = true then d.ocrText.getD ""
           else "No OCR text available for this document.")
    ∧ (handleShowOcrResume id (Response.json d) w).st.cachedOcrTexts
        = ocrSet (some id) (if truthy d.ocrText = true then d.ocrText.getD ""
           else "No OCR text available for this document.") w.st.cachedOcrTexts := by
  cases w with
  | mk st token sent pending alerts downloads =>
    cases st
    exact ⟨rfl, rfl⟩

theorem handleShowOcrResume_failure (id : Nat) (resp : Response) (w : World)
    (h : resp.ok = false) :
    (handleShowOcrResume id resp w).st.currentOcrText = "Failed to load OCR text."
    ∧ (handleShowOcrResume id resp w).st.cachedOcrTexts = w.st.cachedOcrTexts := by
  cases w with
  | mk st token sent pending alerts downloads =>
    cases st
    cases resp
    case noContent => cases h
    case json d => cases h
    all_goals exact ⟨rfl, rfl⟩

theorem handleShowOcrResume_always (id : Nat) (resp : Response) (w : World) :
    (handleShowOcrResume id resp w).st.isOcrLoading = false
    ∧ (handleShowOcrResume id resp w).st.ocrSearchKeyword = w.st.ocrSearchKeyword := by
  cases w with
  | mk st token sent pending alerts downloads =>
    cases st
    cases resp <;> exact ⟨rfl, rfl⟩

theorem step_response_showOcr (w : World) (k : Nat) (q : Request) (id : Nat)
    (resp : Response)
    (hk : w.pending[k]? = some { request := q, cont := Cont.handleShowOcr id }) :
    step (Event.response k resp) w
      = handleShowOcrResume id resp { w with pending := w.pending.eraseIdx k } := by
  have hd : dispatch (Event.response k resp) w
      = handleShowOcrResume id resp { w with pending := w.pending.eraseIdx k } :=
    deliver_of_getElem? k resp w _ hk
  unfold step
  rw [hd]
  cases resp
  case status401 => exact fetchEffect_of_user_none _ _ rfl
  all_goals exact fetchEffect_of_deps_eq _ _ rfl

/-- C15: the OCR view of document `id` is opened in world `w0` (which sends
the OCR request) and, later, in world `w`, the response arrives.  On a
successful response with a JSON body the text shown and the text stored in
the cache under `id` are both the returned `ocrText`, or both the sentinel
when `ocrText` is absent or empty.  When the fetch fails (a status outside
2xx, a 401 or a thrown error) the text shown is the fixed placeholder and the
cache is as it was.  In both cases `isOcrLoading` is false afterwards.  The
highlight keyword set by the call is the committed term at the time of the
call, and handling the response does not change it. -/
theorem show_ocr_effect (w0 w : World) (doc : Document) (k : Nat) (q : Request) (id : Nat)
    (resp : Response) (d : Payload) (text : String) (m : Option String) (t : String)
    (hk : w.pending[k]? = some { request := q, cont := Cont.handleShowOcr id }) :
    ((step (Event.showOcr doc) w0).st.ocrSearchKeyword = w0.st.activeSearchTerm
      ∧ ∃ q0 : Request, (step (Event.showOcr doc) w0).sent = w0.sent ++ [q0]
          ∧ (step (Event.showOcr doc) w0).pending
              = w0.pending ++ [{ request := q0, cont := Cont.handleShowOcr doc.id }]
          ∧ q0.method = "GET" ∧ q0.endpoint = ocrEndpoint doc.id)
    ∧ (d.ocrText = some text → text ≠ "" →
        (step (Event.response k (Response.json d)) w).st.currentOcrText = text
        ∧ ocrGet (some id) (step (Event.response k (Response.json d)) w).st.cachedOcrTexts
            = some text)
    ∧ (d.ocrText = none ∨ d.ocrText = some "" →
        (step (Event.response k (Response.json d)) w).st.currentOcrText
            = "No OCR text available for this document."
        ∧ ocrGet (some id) (step (Event.response k (Response.json d)) w).st.cachedOcrTexts
            = some "No OCR text available for this document.")
    ∧ (resp = Response.notOk m ∨ resp = Response.status401 ∨ resp = Response.thrown t →
        (step (Event.response k resp) w).st.currentOcrText = "Failed to load OCR text."
        ∧ (step (Event.response k resp) w).st.cachedOcrTexts = w.st.cachedOcrTexts)
    ∧ (step (Event.response k resp) w).st.isOcrLoading = false
    ∧ (step (Event.response k resp) w).st.ocrSearchKeyword = w.st.ocrSearchKeyword := by
  refine ⟨?_, ?_, ?_, ?_, ?_, ?_⟩
  · rw [step_showOcr]
    exact handleShowOcr_facts _ _ _ _
  · intro hd hne
    rw [step_response_showOcr w k q id _ hk]
    have ht : truthy d.ocrText = true := by
      rw [hd]
      simp [truthy, hne]
    obtain ⟨h1, h2⟩ := handleShowOcrResume_json id d { w with pending := w.pending.eraseIdx k }
    rw [h1, h2, ocrGet_ocrSet_self, if_pos ht, hd]
    exact ⟨rfl, rfl⟩
  · intro hd
    rw [step_response_showOcr w k q id _ hk]
    have ht : ¬ truthy d.ocrText = true := by
      rcases hd with hd | hd <;> rw [hd] <;> simp [truthy]
    obtain ⟨h1, h2⟩ := handleShowOcrResume_json id d { w with pending := w.pending.eraseIdx k }
    rw [h1, h2, ocrGet_ocrSet_self, if_neg ht]
    exact ⟨rfl, rfl⟩
  · intro hr
    rw [step_response_showOcr w k q id _ hk]
    have hf : resp.ok = false := by
      rcases hr with rfl | rfl | rfl <;> rfl
    exact handleShowOcrResume_failure id resp _ hf
  · rw [step_response_showOcr w k q id _ hk]
    exact (handleShowOcrResume_always id resp _).1
  · rw [step_response_showOcr w k q id _ hk]
    exact (handleShowOcrResume_always id resp _).2

/-- C15 at a concrete world: the OCR view of document 7 was opened while the
committed term was `inv`; the endpoint answers `invoice total`, or an empty
text, or with status 500. -/
theorem show_ocr_effect_witness :
    (showingOcr.st.ocrSearchKeyword = "inv" ∧ showingOcr.st.isOcrLoading = true)
    ∧ ((step (Event.response 0 (Response.json (ocrPayload (some "invoice total"))))
          showingOcr).st.currentOcrText = "invoice total"
      ∧ ocrGet (some 7)
          (step (Event.response 0 (Response.json (ocrPayload (some "invoice total"))))
            showingOcr).st.cachedOcrTexts = some "invoice total")
    ∧ ((step (Event.response 0 (Response.json (ocrPayload (some "")))) showingOcr).st.currentOcrText
          = "No OCR text available for this document."
      ∧ ocrGet (some 7)
          (step (Event.response 0 (Response.json (ocrPayload (some ""))))
            showingOcr).st.cachedOcrTexts
          = some "No OCR text available for this document.")
    ∧ ((step (Event.response 0 (Response.notOk none)) showingOcr).st.currentOcrText
          = "Failed to load OCR text."
      ∧ (step (Event.response 0 (Response.notOk none)) showingOcr).st.cachedOcrTexts = [])
    ∧ (step (Event.response 0 (Response.notOk none)) showingOcr).st.isOcrLoading = false
    ∧ (step (Event.response 0 (Response.notOk none)) showingOcr).st.ocrSearchKeyword = "inv" :=
  have h1 := show_ocr_effect showingOcr showingOcr docScan 0
    { endpoint := "/documents/7/ocr/text", method := "GET", authorization := some "Bearer t0",
      contentType := some "application/json", body := Body.empty }
    7 (Response.notOk none) (ocrPayload (some "invoice total")) "invoice total" none ""
    (by rfl)
  have h2 := show_ocr_effect showingOcr showingOcr docScan 0
    { endpoint := "/documents/7/ocr/text", method := "GET", authorization := some "Bearer t0",
      contentType := some "application/json", body := Body.empty }
    7 (Response.notOk none) (ocrPayload (some "")) "" none "" (by rfl)
  ⟨⟨by rfl, by rfl⟩, h1.2.1 rfl (by decide), h2.2.2.1 (Or.inr rfl), h1.2.2.2.1 (Or.inl rfl),
   h1.2.2.2.2.1, h1.2.2.2.2.2⟩

/-! ## C17: invalidation and storing touch one entry only -/

theorem ocrGet_ocrDelete_ne (key other : CacheKey) (c : OcrCache) (h : key ≠ other) :
    ocrGet other (ocrDelete key c) = ocrGet other c := by
  unfold ocrGet ocrDelete
  rw [List.find?_filter]
  have hp : ∀ a : CacheKey × String,
      (decide ((!(a.1 == key)) = true ∧ (a.1 == other) = true)) = (a.1 == other) := by
    intro a
    by_cases ha : a.1 = other
    · have hk : ¬ other = key := fun h2 => h h2.symm
      simp [hk, ha]
    · simp [ha]
  simp only [hp]

theorem ocrGet_ocrSet_ne (key other : CacheKey) (text : String) (c : OcrCache)
    (h : key ≠ other) : ocrGet other (ocrSet key text c) = ocrGet other c := by
  have hd := ocrGet_ocrDelete_ne key other c h
  unfold ocrGet ocrSet ocrDelete at *
  simp [List.find?_cons, h] at hd ⊢
  exact hd

/-- C17: when the response to an update of document `id`, to a delete of
`id`, to an upload to `id`, to a file deletion on `id` or to the OCR fetch of
`id` has been handled, whatever that response was, the cache entry of every
other document is what it was before: present or absent, with the same
text. -/
theorem other_cache_entries_untouched (w : World) (k : Nat) (q : Request) (c : Cont)
    (r : State) (id other : Nat) (resp : Response)
    (hk : w.pending[k]? = some { request := q, cont := c })
    (hc : (c = Cont.handleUpdateDocument r ∧ r.editingId = some id)
        ∨ c = Cont.handleDelete r id
        ∨ c = Cont.handleFileUpload r id
        ∨ c = Cont.handleDeleteFile r id
        ∨ c = Cont.handleShowOcr id)
    (hne : other ≠ id) :
    ocrGet (some other) (step (Event.response k resp) w).st.cachedOcrTexts
      = ocrGet (some other) w.st.cachedOcrTexts := by
  unfold step
  rw [fetchEffect_st_cachedOcrTexts]
  show ocrGet (some other) (deliver k resp w).st.cachedOcrTexts = _
  rw [deliver_of_getElem? k resp w _ hk]
  have h1 : (some id : CacheKey) ≠ some other := fun h => hne (Option.some.inj h).symm
  have h2 : (c = Cont.handleUpdateDocument r → r.editingId ≠ some other) := by
    intro _ he
    rcases hc with ⟨_, h3⟩ | h3 | h3 | h3 | h3
    · rw [h3] at he
      exact h1 he
    all_goals
      subst h3
      rename_i h4
      cases h4
  clear hk
  cases w with
  | mk st token sent pending alerts downloads =>
    cases st
    rcases hc with ⟨rfl, _⟩ | rfl | rfl | rfl | rfl
    · have h5 := h2 rfl
      cases resp <;>
        first
        | rfl
        | exact ocrGet_ocrDelete_ne _ _ _ h5
    all_goals
      cases resp <;>
        first
        | rfl
        | exact ocrGet_ocrDelete_ne _ _ _ h1
        | exact ocrGet_ocrSet_ne _ _ _ _ h1

/-- C17 at a concrete world: the texts of documents 7 and 8 are cached, the
delete of document 7 succeeds, and the entry of document 8 is unchanged. -/
theorem other_cache_entries_untouched_witness :
    (ocrGet (some 7) deletingScan.st.cachedOcrTexts = some "hello"
      ∧ ocrGet (some 8) deletingScan.st.cachedOcrTexts = some "world")
    ∧ ocrGet (some 7) (step (Event.response 0 Response.noContent) deletingScan).st.cachedOcrTexts
        = none
    ∧ ocrGet (some 8) (step (Event.response 0 Response.noContent) deletingScan).st.cachedOcrTexts
        = some "world" :=
  ⟨⟨by rfl, by rfl⟩, by rfl,
   other_cache_entries_untouched deletingScan 0
     { endpoint := "/documents/7", method := "DELETE", authorization := some "Bearer t0",
       contentType := some "application/json", body := Body.empty }
     (Cont.handleDelete
       (run [ Event.showOcr docScan,
              Event.response 0 (Response.json (ocrPayload (some "hello"))),
              Event.showOcr docInvoice,
              Event.response 0 (Response.json (ocrPayload (some "world"))),
              Event.closeOcrModal ] (loggedIn [docScan, docInvoice])).st 7)
     (run [ Event.showOcr docScan,
            Event.response 0 (Response.json (ocrPayload (some "hello"))),
            Event.showOcr docInvoice,
            Event.response 0 (Response.json (ocrPayload (some "world"))),
            Event.closeOcrModal ] (loggedIn [docScan, docInvoice])).st
     7 8 Response.noContent (by rfl) (Or.inr (Or.inl rfl)) (by decide)⟩

/-! ## Highlighting: the pattern built from the keyword -/

theorem syntaxCharacters_contains_of_escapeClass (c : Char) :
    syntaxCharacters.contains c = escapeClass.contains c := by
  have h1 : syntaxCharacters ⊆ escapeClass := by decide
  have h2 : escapeClass ⊆ syntaxCharacters := by decide
  rw [Bool.eq_iff_iff]
  show List.elem c syntaxCharacters = true ↔ List.elem c escapeClass = true
  rw [List.elem_iff, List.elem_iff]
  exact ⟨fun h => h1 h, fun h => h2 h⟩

theorem parseGroupBody_escapeKeyword (keyword : List Char) :
    parseGroupBody (escapeKeyword keyword ++ [')']) = some keyword := by
  induction keyword with
  | nil => rfl
  | cons c rest ih =>
    unfold escapeKeyword
    by_cases hc : escapeClass.contains c = true
    · rw [if_pos hc]
      have hs : syntaxCharacters.contains c = true := by
        rw [syntaxCharacters_contains_of_escapeClass]
        exact hc
      show parseGroupBody ('\\' :: c :: (escapeKeyword rest ++ [')'])) = _
      unfold parseGroupBody
      rw [if_neg (by decide), if_pos rfl]
      simp only [hs, if_true, ih, Option.map_some']
    · rw [if_neg hc]
      have hs : ¬ syntaxCharacters.contains c = true := by
        rw [syntaxCharacters_contains_of_escapeClass]
        exact hc
      have h1 : ¬ c = ')' := by
        intro h
        apply hs
        rw [h]
        decide
      have h2 : ¬ c = '\\' := by
        intro h
        apply hs
        rw [h]
        decide
      show parseGroupBody (c :: (escapeKeyword rest ++ [')'])) = _
      unfold parseGroupBody
      rw [if_neg h1, if_neg h2, if_neg hs, ih]
      rfl

theorem compileLiteralGroup_escapeKeyword (keyword : List Char) :
    compileLiteralGroup (('(' :: escapeKeyword keyword) ++ [')']) = some keyword := by
  show (if '(' = '(' then parseGroupBody (escapeKeyword keyword ++ [')']) else none) = _
  rw [if_pos rfl]
  exact parseGroupBody_escapeKeyword keyword

/-! ## Highlighting: matching -/

theorem matchesAt_length (T : CaseTables) (lits s : List Char)
    (h : matchesAt T lits s = true) : lits.length ≤ s.length := by
  induction lits generalizing s with
  | nil => exact Nat.zero_le _
  | cons l ls ih =>
    cases s with
    | nil => cases h
    | cons c cs =>
      unfold matchesAt at h
      rw [Bool.and_eq_true] at h
      have := ih cs h.2
      simp only [List.length_cons]
      omega

theorem matchesAt_append (T : CaseTables) (lits s t : List Char)
    (h : matchesAt T lits s = true) : matchesAt T lits (s ++ t) = true := by
  induction lits generalizing s with
  | nil => rfl
  | cons l ls ih =>
    cases s with
    | nil => cases h
    | cons c cs =>
      unfold matchesAt at h
      rw [Bool.and_eq_true] at h
      show matchesAt T (l :: ls) (c :: (cs ++ t)) = true
      unfold matchesAt
      rw [Bool.and_eq_true]
      exact ⟨h.1, ih cs h.2⟩

theorem matchesAt_take (T : CaseTables) (lits s : List Char)
    (h : matchesAt T lits s = true) : matchesAt T lits (s.take lits.length) = true := by
  induction lits generalizing s with
  | nil => rfl
  | cons l ls ih =>
    cases s with
    | nil => cases h
    | cons c cs =>
      unfold matchesAt at h
      rw [Bool.and_eq_true] at h
      show matchesAt T (l :: ls) (c :: cs.take ls.length) = true
      unfold matchesAt
      rw [Bool.and_eq_true]
      exact ⟨h.1, ih cs h.2⟩

theorem not_isOccurrence_of_noOccurrenceStartsIn (T : CaseTables)
    (keyword u after : List Char) (hpos : 0 < keyword.length)
    (h : noOccurrenceStartsIn T keyword u after) : isOccurrence T keyword u = false := by
  cases hocc : isOccurrence T keyword u with
  | false => rfl
  | true =>
    unfold isOccurrence at hocc
    rw [Bool.and_eq_true, beq_iff_eq] at hocc
    have h0 := h 0 (by omega)
    rw [List.drop_zero, matchesAt_append T keyword u after hocc.2] at h0
    cases h0

/-! ## Highlighting: the parts of the split -/

theorem splitLoop_flatten (T : CaseTables) (lits : List Char) (fuel : Nat)
    (s cur : List Char) : (splitLoop T lits fuel s cur).flatten = cur.reverse ++ s := by
  induction fuel generalizing s cur with
  | zero => simp [splitLoop]
  | succ fuel ih =>
    cases s with
    | nil => simp [splitLoop]
    | cons c cs =>
      by_cases hm : matchesAt T lits (c :: cs) = true
      · simp only [splitLoop, hm, if_true, List.flatten_cons, ih, List.reverse_nil,
          List.nil_append, List.take_append_drop]
      · have hm2 : matchesAt T lits (c :: cs) = false := by simpa using hm
        simp [splitLoop, hm2, ih]

theorem textOf_map (T : CaseTables) (keyword : List Char) (raw : List (List Char)) :
    textOf (raw.map (fun part =>
        ({ text := String.mk part,
           highlighted := T.toLowerCase part == T.toLowerCase keyword } : Part)))
      = raw.flatten := by
  unfold textOf
  rw [List.map_map]
  have h : ((fun p : Part => p.text.data) ∘ fun part =>
        ({ text := String.mk part,
           highlighted := T.toLowerCase part == T.toLowerCase keyword } : Part)) = id := by
    funext part
    rfl
  rw [h, List.map_id]

theorem splitLoop_leftmostMarked (T : CaseTables) (keyword : List Char)
    (hpos : 0 < keyword.length)
    (hagree : ∀ p : List Char,
      (T.toLowerCase p == T.toLowerCase keyword) = isOccurrence T keyword p)
    (fuel : Nat) (s cur : List Char) (hfuel : s.length < fuel)
    (hno : noOccurrenceStartsIn T keyword cur.reverse s) :
    LeftmostMarked T keyword ((splitLoop T keyword fuel s cur).map (fun part =>
      ({ text := String.mk part,
         highlighted := T.toLowerCase part == T.toLowerCase keyword } : Part))) := by
  induction fuel generalizing s cur with
  | zero => omega
  | succ fuel ih =>
    cases s with
    | nil =>
      simp only [splitLoop, List.map_cons, List.map_nil]
      rw [hagree, not_isOccurrence_of_noOccurrenceStartsIn T keyword cur.reverse [] hpos hno]
      exact LeftmostMarked.last _ hno
    | cons c cs =>
      by_cases hm : matchesAt T keyword (c :: cs) = true
      · have hlen := matchesAt_length T keyword (c :: cs) hm
        have hocc : isOccurrence T keyword ((c :: cs).take keyword.length) = true := by
          unfold isOccurrence
          rw [Bool.and_eq_true, beq_iff_eq, List.length_take]
          exact ⟨by omega, matchesAt_take T keyword (c :: cs) hm⟩
        simp only [splitLoop, hm, if_true, List.map_cons]
        rw [hagree cur.reverse,
          not_isOccurrence_of_noOccurrenceStartsIn T keyword cur.reverse (c :: cs) hpos hno,
          hagree ((c :: cs).take keyword.length), hocc]
        apply LeftmostMarked.cons
        · rw [textOf_map, splitLoop_flatten, List.reverse_nil, List.nil_append,
            List.take_append_drop]
          exact hno
        · exact hocc
        · apply ih
          · rw [List.length_drop]
            simp only [List.length_cons] at hfuel ⊢
            omega
          · intro i hi
            simp at hi
      · have hm2 : matchesAt T keyword (c :: cs) = false := by simpa using hm
        simp only [splitLoop, hm2, Bool.false_eq_true, if_false]
        apply ih
        · simp only [List.length_cons] at hfuel
          omega
        · intro i hi
          rw [List.reverse_cons, List.append_assoc, List.singleton_append]
          rw [List.reverse_cons, List.length_append, List.length_singleton] at hi
          by_cases hi2 : i < cur.reverse.length
          · exact hno i hi2
          · have hi3 : i = cur.reverse.length := by omega
            rw [hi3, List.drop_left]
            exact hm2

theorem leftmostMarked_highlighted_iff (T : CaseTables) (keyword : List Char)
    (hpos : 0 < keyword.length) (parts : List Part) (h : LeftmostMarked T keyword parts) :
    ∀ p ∈ parts, (p.highlighted = true ↔ isOccurrence T keyword p.text.data = true) := by
  induction h with
  | last u hno =>
    intro p hp
    rw [List.mem_singleton] at hp
    subst hp
    show false = true ↔ isOccurrence T keyword u = true
    rw [not_isOccurrence_of_noOccurrenceStartsIn T keyword u [] hpos hno]
  | cons u m rest hno hocc _ ih =>
    intro p hp
    rcases List.mem_cons.mp hp with rfl | hp
    · show false = true ↔ isOccurrence T keyword u = true
      rw [not_isOccurrence_of_noOccurrenceStartsIn T keyword u _ hpos hno]
    · rcases List.mem_cons.mp hp with rfl | hp
      · show true = true ↔ isOccurrence T keyword m = true
        rw [hocc]
      · exact ih p hp

theorem highlightText_of_not_blank (T : CaseTables) (text keyword : String)
    (hb : isBlank keyword.data = false) :
    highlightText T text keyword
      = (split T keyword.data text.data).map (fun part =>
          ({ text := String.mk part,
             highlighted := T.toLowerCase part == T.toLowerCase keyword.data } : Part)) := by
  unfold highlightText
  rw [if_neg (by rw [hb]; exact Bool.false_ne_true), compileLiteralGroup_escapeKeyword]

theorem length_pos_of_not_blank (keyword : List Char) (hb : isBlank keyword = false) :
    0 < keyword.length := by
  cases keyword with
  | nil => cases hb
  | cons c cs => exact Nat.succ_pos _

/-! ## Highlighting where the two comparisons agree -/

/-- Where the test of line 439 and the regular expression agree on the
keyword (a piece has the lower case of the keyword exactly when the keyword
matches it under the flag `i`), a non-blank keyword is highlighted as one
expects: the pattern built from the escaped keyword matches the characters of
the keyword literally, whatever syntax characters it contains; the
highlighted pieces are the occurrences found from the left without overlap;
and a part is highlighted if and only if it is an occurrence.  A blank
keyword gives the text back as one plain piece. -/
theorem highlight_marks_occurrences (T : CaseTables) (text keyword : String)
    (hagree : ∀ p : List Char,
      (T.toLowerCase p == T.toLowerCase keyword.data) = isOccurrence T keyword.data p) :
    (isBlank keyword.data = true →
        highlightText T text keyword = [{ text := text, highlighted := false }])
    ∧ (isBlank keyword.data = false →
        compileLiteralGroup (('(' :: escapeKeyword keyword.data) ++ [')']) = some keyword.data
        ∧ LeftmostMarked T keyword.data (highlightText T text keyword)
        ∧ ∀ p ∈ highlightText T text keyword,
            (p.highlighted = true ↔ isOccurrence T keyword.data p.text.data = true)) := by
  constructor
  · intro hb
    unfold highlightText
    rw [if_pos hb]
  · intro hb
    have hpos := length_pos_of_not_blank keyword.data hb
    have hl : LeftmostMarked T keyword.data (highlightText T text keyword) := by
      rw [highlightText_of_not_blank T text keyword hb]
      unfold split
      apply splitLoop_leftmostMarked T keyword.data hpos hagree
      · exact Nat.lt_succ_self _
      · intro i hi
        simp at hi
    exact ⟨compileLiteralGroup_escapeKeyword keyword.data, hl,
      leftmostMarked_highlighted_iff T keyword.data hpos _ hl⟩

theorem sampleCanonicalize_eq_iff (a b : Nat) (hb : b < 128) :
    sampleCanonicalize a = sampleCanonicalize b
      ↔ sampleToLowerCaseCode a = sampleToLowerCaseCode b := by
  unfold sampleCanonicalize sampleToLowerCaseCode
  split_ifs <;> omega

theorem sampleTables_agree (keyword : List Char) (hk : isAscii keyword) (p : List Char) :
    (sampleTables.toLowerCase p == sampleTables.toLowerCase keyword)
      = isOccurrence sampleTables keyword p := by
  rw [Bool.eq_iff_iff, beq_iff_eq]
  show p.map (fun c => sampleToLowerCaseCode c.toNat)
      = keyword.map (fun c => sampleToLowerCaseCode c.toNat)
    ↔ isOccurrence sampleTables keyword p = true
  unfold isOccurrence
  induction keyword generalizing p with
  | nil =>
    cases p with
    | nil => simp [matchesAt]
    | cons c cs => simp
  | cons l ls ih =>
    cases p with
    | nil => simp
    | cons c cs =>
      have hl : l.toNat < 128 := hk l (List.mem_cons_self _ _)
      have hls : isAscii ls := fun x hx => hk x (List.mem_cons_of_mem _ hx)
      have ih2 := ih hls cs
      have hch : sampleCanonicalize l.toNat = sampleCanonicalize c.toNat
          ↔ sampleToLowerCaseCode c.toNat = sampleToLowerCaseCode l.toNat := by
        rw [eq_comm, sampleCanonicalize_eq_iff c.toNat l.toNat hl]
      unfold matchesAt
      simp only [List.map_cons, List.cons.injEq, List.length_cons, Bool.and_eq_true,
        beq_iff_eq, Nat.add_right_cancel_iff] at ih2 ⊢
      constructor
      · rintro ⟨h1, h2⟩
        have h3 := ih2.mp h2
        exact ⟨h3.1, hch.mpr h1, h3.2⟩
      · rintro ⟨h1, h2, h3⟩
        exact ⟨hch.mp h2, ih2.mpr ⟨h1, h3⟩⟩

/-- The statement above at concrete inputs, with the sample table: a blank
keyword, and the keyword `a.b` (with a syntax character) in a text that
contains it twice in different case and once with another character in place
of the dot. -/
theorem highlight_marks_occurrences_witness :
    highlightText sampleTables "a.b aXb A.B" "  "
        = [{ text := "a.b aXb A.B", highlighted := false }]
    ∧ highlightText sampleTables "a.b aXb A.B" "a.b"
        = [{ text := "", highlighted := false }, { text := "a.b", highlighted := true },
           { text := " aXb ", highlighted := false }, { text := "A.B", highlighted := true },
           { text := "", highlighted := false }]
    ∧ LeftmostMarked sampleTables "a.b".data (highlightText sampleTables "a.b aXb A.B" "a.b")
    ∧ ∀ p ∈ highlightText sampleTables "a.b aXb A.B" "a.b",
        (p.highlighted = true ↔ isOccurrence sampleTables "a.b".data p.text.data = true) :=
  ⟨(highlight_marks_occurrences sampleTables "a.b aXb A.B" "  "
      (sampleTables_agree "  ".data (by decide))).1 (by rfl),
   by rfl,
   ((highlight_marks_occurrences sampleTables "a.b aXb A.B" "a.b"
      (sampleTables_agree "a.b".data (by decide))).2 (by rfl)).2.1,
   ((highlight_marks_occurrences sampleTables "a.b aXb A.B" "a.b"
      (sampleTables_agree "a.b".data (by decide))).2 (by rfl)).2.2⟩

/-! ## C16: what is highlighted -/

/-- C16 on the code.  The keyword is the small sigma (code 963) and the text
is the final sigma (code 962).  In every engine whose tables give both
letters the same canonical form (in ECMAScript both have the capital sigma
as upper case) while `toLowerCase` keeps them different (each is its own lower
case) and does not turn the keyword into the empty string, the keyword is not
blank, the regular expression matches the text, so that the text is an
occurrence of the keyword compared without regard to case, and `split`
returns it as the captured part; yet no part is highlighted. -/
theorem final_sigma_is_matched_but_not_highlighted (T : CaseTables)
    (hcanon : T.canonicalize 963 = T.canonicalize 962)
    (hlower : T.toLowerCase "ς".data ≠ T.toLowerCase "σ".data)
    (hempty : T.toLowerCase "".data ≠ T.toLowerCase "σ".data) :
    isBlank "σ".data = false
    ∧ compileLiteralGroup (('(' :: escapeKeyword "σ".data) ++ [')']) = some "σ".data
    ∧ isOccurrence T "σ".data "ς".data = true
    ∧ split T "σ".data "ς".data = ["".data, "ς".data, "".data]
    ∧ highlightText T "ς" "σ"
        = [{ text := "", highlighted := false }, { text := "ς", highlighted := false },
           { text := "", highlighted := false }] := by
  have hm : matchesAt T "σ".data "ς".data = true := by
    show (T.canonicalize 963 == T.canonicalize 962 && true) = true
    rw [hcanon]
    simp
  have hs : split T "σ".data "ς".data = ["".data, "ς".data, "".data] := by
    show splitLoop T "σ".data 2 "ς".data [] = _
    show (if matchesAt T "σ".data "ς".data = true then
        [[], "ς".data, []] else splitLoop T "σ".data 1 [] ['ς']) = _
    rw [if_pos hm]
  have h1 : (T.toLowerCase "ς".data == T.toLowerCase "σ".data) = false := by
    cases hb : T.toLowerCase "ς".data == T.toLowerCase "σ".data with
    | false => rfl
    | true => exact absurd (eq_of_beq hb) hlower
  have h2 : (T.toLowerCase "".data == T.toLowerCase "σ".data) = false := by
    cases hb : T.toLowerCase "".data == T.toLowerCase "σ".data with
    | false => rfl
    | true => exact absurd (eq_of_beq hb) hempty
  refine ⟨by rfl, by rfl, ?_, hs, ?_⟩
  · show ((1 : Nat) == 1 && matchesAt T "σ".data "ς".data) = true
    rw [hm]
    rfl
  · rw [highlightText_of_not_blank T "ς" "σ" (by rfl), hs]
    show [({ text := "", highlighted := T.toLowerCase "".data == T.toLowerCase "σ".data } : Part),
          { text := "ς", highlighted := T.toLowerCase "ς".data == T.toLowerCase "σ".data },
          { text := "", highlighted := T.toLowerCase "".data == T.toLowerCase "σ".data }] = _
    rw [h1, h2]

/-- C16 on the code, with the sample table, which has the three properties:
for the keyword small sigma and the text final sigma no part is highlighted
although the text is an occurrence of the keyword. -/
theorem final_sigma_is_matched_but_not_highlighted_witness :
    isBlank "σ".data = false
    ∧ compileLiteralGroup (('(' :: escapeKeyword "σ".data) ++ [')']) = some "σ".data
    ∧ isOccurrence sampleTables "σ".data "ς".data = true
    ∧ split sampleTables "σ".data "ς".data = ["".data, "ς".data, "".data]
    ∧ highlightText sampleTables "ς" "σ"
        = [{ text := "", highlighted := false }, { text := "ς", highlighted := false },
           { text := "", highlighted := false }] :=
  final_sigma_is_matched_but_not_highlighted sampleTables (by rfl) (by decide) (by decide)

/-! ## C18: highlighting keeps the text -/

/-- C18: for every text and every keyword, and whatever the case tables of
the engine, the texts of the parts returned by `highlightText`, joined in
order, are the original text, character for character. -/
theorem highlight_preserves_text (T : CaseTables) (text keyword : String) :
    String.join ((highlightText T text keyword).map (fun p => p.text)) = text := by
  apply String.ext
  rw [String.data_join, List.map_map]
  cases hb : isBlank keyword.data with
  | true =>
    unfold highlightText
    rw [if_pos hb]
    simp
  | false =>
    rw [highlightText_of_not_blank T text keyword hb, List.map_map]
    have h : ((String.data ∘ fun p : Part => p.text) ∘ fun part =>
          ({ text := String.mk part,
             highlighted := T.toLowerCase part == T.toLowerCase keyword.data } : Part))
        = id := by
      funext part
      rfl
    rw [h, List.map_id]
    unfold split
    rw [splitLoop_flatten]
    rfl

end DocumentManager
